import Mathlib

/-!
# Shallow embedding of the shared validation layer of `rx_managment_platform`

Source files embedded here:
* `src/packages/shared/src/constants.js` — the domain vocabulary objects;
* `src/packages/shared/src/validators/userValidator.js` — `isValidEmail`,
  `isValidPhoneNumber`, `isValidDate`, `isValidZipCode`, `isValidStateCode`,
  `validateUser`;
* `src/packages/shared/src/validators/insuranceValidator.js` — `isValidRxBIN`,
  `isValidPlanType`, `isInsuranceActive`, `validateInsurance`;
* `src/unnamed/part_002` — `isValidNDC`, `isValidNPI`,
  `isValidPrescriptionStatus`, `isValidMedicationForm`, `validatePrescription`.

JavaScript values reaching the validators are modelled by `Rx.JSVal`:
`undefined`, `null`, booleans, numbers, strings and plain data objects.
Numbers are modelled as integers: the validators only compare numbers and
never perform arithmetic on them, and every numeric field of the data model
is documented as an integer amount (cents, counts of refills, etc.).
Method calls that can raise a `TypeError` at runtime (`.trim()` /
`.toUpperCase()` on a non-string, property access on `null`/`undefined`)
are modelled with `Option`: `none` is a thrown exception, `some` a normal
return.

Modelling notes on host semantics (each noted again at its definition):
* `new Date(string)` is modelled for the strict `YYYY-MM-DD` ISO date-only
  format (the only format this code base produces and validates); other
  string shapes are mapped to an invalid date (`none`, the model of `NaN`).
* `ToNumber` on strings is modelled for optionally signed decimal integer
  numerals; other numeric string forms are mapped to `none` (`NaN`).
* `trim`, `\s` and `toUpperCase` use the ASCII subsets of the corresponding
  Unicode-aware JavaScript operations.
No claim below depends on an input in the unmodelled regions.
-/

namespace Rx

/-- A JavaScript runtime value, as far as the validators can observe one:
`undefined`, `null`, a boolean, a (numeric) number, a string, or a plain
object holding named fields. -/
inductive JSVal where
  | undefined : JSVal
  | null : JSVal
  | boolean : Bool → JSVal
  | number : Int → JSVal
  | string : String → JSVal
  | object : List (String × JSVal) → JSVal

/-- JavaScript truthiness: `undefined`, `null`, `false`, `0` and `""` are
falsy, everything else (objects included) is truthy.  (`NaN`, the one other
falsy value, does not exist in the integer number model.) -/
def truthy : JSVal → Bool
  | .undefined => false
  | .null => false
  | .boolean b => b
  | .number n => n != 0
  | .string s => s != ""
  | .object _ => true

/-- JavaScript `ToString`, as a regex's `test` applies it to a non-string
argument.  A plain object stringifies to `"[object Object]"`. -/
def jsToString : JSVal → String
  | .undefined => "undefined"
  | .null => "null"
  | .boolean b => if b then "true" else "false"
  | .number n => toString n
  | .string s => s
  | .object _ => "[object Object]"

/-- Reading field `k` of an object literal: the value stored under the first
occurrence of the key, `undefined` when the key is not there. -/
def lookupField (fs : List (String × JSVal)) (k : String) : JSVal :=
  match fs.find? (fun p => p.1 == k) with
  | some p => p.2
  | none => .undefined

/-- Property access `v.k` on a receiver that is not `null`/`undefined`: a
primitive receiver yields `undefined` for the field names the validators
read. -/
def fieldOf (v : JSVal) (k : String) : JSVal :=
  match v with
  | .object fs => lookupField fs k
  | _ => .undefined

/-- Property access `v.k`: `none` models the `TypeError` thrown on `null`
and `undefined`. -/
def getField : JSVal → String → Option JSVal
  | .undefined, _ => none
  | .null, _ => none
  | v, k => some (fieldOf v k)

/-- The ASCII part of JavaScript's `\s` class (also what `trim` removes).
The additional Unicode space characters are not modelled; no claim uses one. -/
def jsSpace (c : Char) : Bool :=
  c = ' ' || c = '\t' || c = '\n' || c = '\r' || c = '\x0b' || c = '\x0c'

/-- Leading and trailing whitespace removed from a character list. -/
def trimChars (l : List Char) : List Char :=
  ((l.dropWhile jsSpace).reverse.dropWhile jsSpace).reverse

/-- `String.prototype.trim` over the modelled whitespace set. -/
def jsTrim (s : String) : String :=
  String.mk (trimChars s.data)

/-- The character list split at every occurrence of `sep` (what the
single-`@` test of the email regex needs). -/
def splitOnChar (sep : Char) : List Char → List (List Char)
  | [] => [[]]
  | c :: rest =>
      match splitOnChar sep rest with
      | [] => [[]]
      | h :: t => if c = sep then [] :: h :: t else (c :: h) :: t

/-- `/^[^\s@]+@[^\s@]+\.[^\s@]+$/`: the part after the single `@` must
contain a `.` that is neither its first nor its last character. -/
def hasInnerDot (l : List Char) : Bool :=
  ((l.drop 1).dropLast).contains '.'

/-- The email regex of `userValidator.js` line 14, as the equivalent
decomposition test: the anchored pattern matches exactly when the string is
`a ++ "@" ++ b ++ "." ++ c` with `a`, `b`, `c` nonempty and free of
whitespace and `@`. -/
def emailPattern (s : String) : Bool :=
  match splitOnChar '@' s.data with
  | [a, b] =>
      !a.isEmpty && a.all (fun c => !jsSpace c) &&
      !b.isEmpty && b.all (fun c => !jsSpace c) && hasInnerDot b
  | _ => false

/-- The phone regex `/^\+?1?\d{10,14}$/` of `userValidator.js` line 24:
after an optional leading `+`, either 10–14 digits, or a leading `1`
followed by 10–14 digits (the leading `1` may also count among the
digits, as regex backtracking allows). -/
def phonePattern (s : String) : Bool :=
  let t := match s.data with
           | '+' :: rest => rest
           | l => l
  t.all Char.isDigit &&
    ((10 ≤ t.length && t.length ≤ 14) ||
     (match t with
      | '1' :: _ => 11 ≤ t.length && t.length ≤ 15
      | _ => false))

/-- The date regex `/^\d{4}-\d{2}-\d{2}$/` of `userValidator.js` line 34,
returning the three digit groups. -/
def ymdParse (s : String) : Option (Nat × Nat × Nat) :=
  match s.data with
  | [y1, y2, y3, y4, h1, m1, m2, h2, d1, d2] =>
      if [y1, y2, y3, y4, m1, m2, d1, d2].all Char.isDigit && h1 = '-' && h2 = '-' then
        some (((y1.toNat - 48) * 1000 + (y2.toNat - 48) * 100 +
                 (y3.toNat - 48) * 10 + (y4.toNat - 48),
               (m1.toNat - 48) * 10 + (m2.toNat - 48),
               (d1.toNat - 48) * 10 + (d2.toNat - 48)))
      else none
  | _ => none

/-- Proleptic Gregorian leap year, as the ISO date parser of the JavaScript
engine applies it (year 0 is a leap year). -/
def isLeapYear (y : Nat) : Bool :=
  (y % 4 = 0 && y % 100 ≠ 0) || y % 400 = 0

/-- Days in a month of the proleptic Gregorian calendar. -/
def daysInMonth (y m : Nat) : Nat :=
  if m = 2 then (if isLeapYear y then 29 else 28)
  else if m = 4 || m = 6 || m = 9 || m = 11 then 30
  else 31

/-- Days from the civil epoch 1970-01-01 to `y-m-d` (valid for the
four-digit years the date regex admits).  Computed on the 400-year-shifted
year so that every intermediate quantity is a natural number. -/
def daysFromCivil (y m d : Nat) : Int :=
  let y1 := y + 400 - (if m ≤ 2 then 1 else 0)
  let era := y1 / 400
  let yoe := y1 % 400
  let mp := (m + 9) % 12
  let doy := (153 * mp + 2) / 5 + d - 1
  let doe := yoe * 365 + yoe / 4 - yoe / 100 + doy
  (era * 146097 + doe : Int) - 719468 - 146097

/-- `new Date(s)` for a string, in milliseconds since the epoch.
Modelled for the strict ISO `YYYY-MM-DD` format, which the engine parses as
midnight UTC of that day and rejects (`NaN`, here `none`) when the digit
groups do not denote a real calendar date (month outside 1–12 or day outside
the month).  The engine's implementation-specific fallback parsing of other
string shapes is not modelled: every other string maps to `none`; no claim
depends on such an input. -/
def newDateOfString (s : String) : Option Int :=
  match ymdParse s with
  | some (y, m, d) =>
      if 1 ≤ m && m ≤ 12 && 1 ≤ d && d ≤ daysInMonth y m then
        some (daysFromCivil y m d * 86400000)
      else none
  | none => none

/-- `new Date(v)` for an arbitrary value: a number is a millisecond
timestamp, `null`/booleans go through `ToNumber`, `undefined` and plain
objects give an invalid date (`none` models `NaN`). -/
def newDate : JSVal → Option Int
  | .string s => newDateOfString s
  | .number n => some n
  | .boolean b => some (if b then 1 else 0)
  | .null => some 0
  | .undefined => none
  | .object _ => none

/-- `a < b` on two date values (via `valueOf`); any `NaN` side makes the
comparison false. -/
def dateLt (a b : Option Int) : Bool :=
  match a, b with
  | some x, some y => decide (x < y)
  | _, _ => false

/-- `a <= b` on two date values; any `NaN` side makes the comparison false. -/
def dateLe (a b : Option Int) : Bool :=
  match a, b with
  | some x, some y => decide (x ≤ y)
  | _, _ => false

/-- The ZIP regex `/^\d{5}(-\d{4})?$/` of `userValidator.js` line 48. -/
def zipPattern (s : String) : Bool :=
  match s.data with
  | [a, b, c, d, e] => [a, b, c, d, e].all Char.isDigit
  | [a, b, c, d, e, f, g, h, i, j] =>
      [a, b, c, d, e].all Char.isDigit && f = '-' && [g, h, i, j].all Char.isDigit
  | _ => false

/-- The RxBIN regex `/^\d{6}$/` of `insuranceValidator.js` line 16. -/
def rxBINPattern (s : String) : Bool :=
  s.length = 6 && s.data.all Char.isDigit

/-- The NPI regex `/^\d{10}$/` of `src/unnamed/part_002` line 27. -/
def npiPattern (s : String) : Bool :=
  s.length = 10 && s.data.all Char.isDigit

/-- The NDC regex `/^\d{5}-\d{4}-\d{2}$/` of `src/unnamed/part_002` line 16. -/
def ndcPattern (s : String) : Bool :=
  match s.data with
  | [a, b, c, d, e, h1, f, g, h, i, h2, j, k] =>
      [a, b, c, d, e].all Char.isDigit && h1 = '-' &&
      [f, g, h, i].all Char.isDigit && h2 = '-' && [j, k].all Char.isDigit
  | _ => false

/-- `isValidEmail` (`userValidator.js` 13–16): `emailRegex.test(email)`, the
argument coerced to a string by `test`. -/
def isValidEmail (email : JSVal) : Bool :=
  emailPattern (jsToString email)

/-- `isValidPhoneNumber` (`userValidator.js` 23–26). -/
def isValidPhoneNumber (phoneNumber : JSVal) : Bool :=
  phonePattern (jsToString phoneNumber)

/-- `isValidDate` (`userValidator.js` 33–40): the digit-grouping regex must
match and `new Date(date)` must be a real date (not `NaN`). -/
def isValidDate (date : JSVal) : Bool :=
  let s := jsToString date
  if (ymdParse s).isNone then false
  else (newDateOfString s).isSome

/-- `isValidZipCode` (`userValidator.js` 47–50). -/
def isValidZipCode (zipCode : JSVal) : Bool :=
  zipPattern (jsToString zipCode)

/-- The 56-entry state/territory list of `userValidator.js` 58–65. -/
def validStates : List String :=
  ["AL", "AK", "AZ", "AR", "CA", "CO", "CT", "DE", "FL", "GA",
   "HI", "ID", "IL", "IN", "IA", "KS", "KY", "LA", "ME", "MD",
   "MA", "MI", "MN", "MS", "MO", "MT", "NE", "NV", "NH", "NJ",
   "NM", "NY", "NC", "ND", "OH", "OK", "OR", "PA", "RI", "SC",
   "SD", "TN", "TX", "UT", "VT", "VA", "WA", "WV", "WI", "WY",
   "DC", "PR", "VI", "GU", "AS", "MP"]

/-- `String.prototype.toUpperCase` restricted to ASCII letters, written as
a map over the character list (kernel-computable, extensionally the same
as `String.toUpper`). -/
def jsToUpperCase (s : String) : String :=
  String.mk (s.data.map Char.toUpper)

/-- `isValidStateCode` (`userValidator.js` 57–67):
`validStates.includes(state?.toUpperCase())`.  Optional chaining turns a
nullish receiver into `undefined` (so `includes` sees `undefined` and
answers `false`), but `toUpperCase` on any other non-string receiver is a
`TypeError`, modelled as `none`. -/
def isValidStateCode : JSVal → Option Bool
  | .null => some false
  | .undefined => some false
  | .string s => some (validStates.contains (jsToUpperCase s))
  | _ => none

/-- The `InsurancePlanType` vocabulary object (`constants.js` 7–13), keys in
declaration order. -/
def InsurancePlanType : List (String × String) :=
  [("HMO", "HMO"), ("PPO", "PPO"), ("EPO", "EPO"), ("POS", "POS"), ("HDHP", "HDHP")]

/-- The `PrescriptionStatus` vocabulary object (`constants.js` 19–28). -/
def PrescriptionStatus : List (String × String) :=
  [("PENDING", "PENDING"), ("SUBMITTED", "SUBMITTED"), ("APPROVED", "APPROVED"),
   ("DENIED", "DENIED"), ("PRIOR_AUTH_REQUIRED", "PRIOR_AUTH_REQUIRED"),
   ("FILLED", "FILLED"), ("PICKED_UP", "PICKED_UP"), ("CANCELLED", "CANCELLED")]

/-- The `MedicationForm` vocabulary object (`constants.js` 34–43). -/
def MedicationForm : List (String × String) :=
  [("TABLET", "TABLET"), ("CAPSULE", "CAPSULE"), ("LIQUID", "LIQUID"),
   ("INJECTION", "INJECTION"), ("CREAM", "CREAM"), ("INHALER", "INHALER"),
   ("PATCH", "PATCH"), ("OTHER", "OTHER")]

/-- `Object.values` of a vocabulary object: the values in declaration order. -/
def objectValues (o : List (String × String)) : List String :=
  o.map (fun p => p.2)

/-- `list.includes(v)` for a list of strings: SameValueZero equality, so a
non-string `v` is never a member. -/
def jsIncludes (l : List String) (v : JSVal) : Bool :=
  l.any (fun s => match v with | .string t => t == s | _ => false)

/-- `isValidPlanType` (`insuranceValidator.js` 25–27). -/
def isValidPlanType (planType : JSVal) : Bool :=
  jsIncludes (objectValues InsurancePlanType) planType

/-- `isValidPrescriptionStatus` (`src/unnamed/part_002` 36–38). -/
def isValidPrescriptionStatus (status : JSVal) : Bool :=
  jsIncludes (objectValues PrescriptionStatus) status

/-- `isValidMedicationForm` (`src/unnamed/part_002` 45–47). -/
def isValidMedicationForm (form : JSVal) : Bool :=
  jsIncludes (objectValues MedicationForm) form

/-- `isValidRxBIN` (`insuranceValidator.js` 15–18). -/
def isValidRxBIN (rxBIN : JSVal) : Bool :=
  rxBINPattern (jsToString rxBIN)

/-- `isValidNPI` (`src/unnamed/part_002` 26–29). -/
def isValidNPI (npi : JSVal) : Bool :=
  npiPattern (jsToString npi)

/-- `isValidNDC` (`src/unnamed/part_002` 15–18). -/
def isValidNDC (ndc : JSVal) : Bool :=
  ndcPattern (jsToString ndc)

/-- `ToPrimitive` with number hint as the relational operators apply it: a
plain object (no own `valueOf`/`toString`) becomes `"[object Object]"`,
every other value is already primitive. -/
def toPrimitive : JSVal → JSVal
  | .object _ => .string "[object Object]"
  | v => v

/-- Digits of a numeral to its value. -/
def digitsToNat (l : List Char) : Nat :=
  l.foldl (fun a c => a * 10 + (c.toNat - 48)) 0

/-- `ToNumber` on a string, modelled for optionally signed decimal integer
numerals (a whitespace-only string is `0`).  Other numeric string forms
(fractions, exponents, hex, `Infinity`) are mapped to `none` (`NaN`); no
claim depends on one. -/
def strToNumber (s : String) : Option Int :=
  match trimChars s.data with
  | [] => some 0
  | '-' :: ds => if ds ≠ [] && ds.all Char.isDigit then some (-(digitsToNat ds : Int)) else none
  | '+' :: ds => if ds ≠ [] && ds.all Char.isDigit then some ((digitsToNat ds : Int)) else none
  | ds => if ds.all Char.isDigit then some ((digitsToNat ds : Int)) else none

/-- `ToNumber` on a primitive value; `none` models `NaN`. -/
def toNumber : JSVal → Option Int
  | .undefined => none
  | .null => some 0
  | .boolean b => some (if b then 1 else 0)
  | .number n => some n
  | .string s => strToNumber s
  | .object _ => none

/-- UTF-16 code-unit lexicographic order of JavaScript string comparison
(on the basic plane it coincides with this code-point order). -/
def charListLt : List Char → List Char → Bool
  | _, [] => false
  | [], _ :: _ => true
  | a :: as, b :: bs => a < b || (a == b && charListLt as bs)

/-- The JavaScript `a > b` of the abstract relational comparison: both
operands to primitives; two strings compare lexicographically, otherwise
both go through `ToNumber` and any `NaN` makes the comparison false. -/
def jsGT (a b : JSVal) : Bool :=
  match toPrimitive a, toPrimitive b with
  | .string x, .string y => charListLt y.data x.data
  | pa, pb =>
      match toNumber pa, toNumber pb with
      | some x, some y => decide (y < x)
      | _, _ => false

/-- `{ isValid, errors }` as the three record validators return it. -/
structure ValidationResult where
  isValid : Bool
  errors : List String
deriving DecidableEq

/-- The repeated required-free-text pattern
`if (!v || v.trim().length === 0) errors.push(msg)`:
a falsy value short-circuits to the presence error, a truthy string is
trimmed, and `.trim()` on a truthy non-string is a `TypeError` (`none`). -/
def requiredTrimmed (msg : String) (v : JSVal) : Option (List String) :=
  if !truthy v then some [msg]
  else match v with
    | .string s => some (if (jsTrim s).length = 0 then [msg] else [])
    | _ => none

/-- The repeated pattern `if (!v) push(req) else if (!test(v)) push(bad)`
for a format checker that coerces its argument (never throws). -/
def requiredFormat (req bad : String) (test : JSVal → Bool) (v : JSVal) : List String :=
  if !truthy v then [req]
  else if !test v then [bad]
  else []

/-- The first/last-name pattern of `validateUser` (`userValidator.js`
85–95): presence and empty-after-trim, then the 100-character cap. -/
def requiredName (req long : String) (v : JSVal) : Option (List String) :=
  if !truthy v then some [req]
  else match v with
    | .string s => some (if (jsTrim s).length = 0 then [req]
                         else if 100 < s.length then [long] else [])
    | _ => none

/-- The state field of the nested address (`userValidator.js` 123–127). -/
def stateFieldErrors (v : JSVal) : Option (List String) :=
  if !truthy v then some ["State is required"]
  else match isValidStateCode v with
    | some b => some (if !b then ["Invalid state code (must be 2-letter code like CA, NY)"] else [])
    | none => none

/-- The nested address block of `validateUser` (`userValidator.js`
112–134).  The block only runs on a truthy `address`, so the inner property
reads cannot throw; the `.trim()` calls on `street`/`city` still can. -/
def addressErrors (a : JSVal) : Option (List String) :=
  if !truthy a then some ["Address is required"]
  else do
    let e1 ← requiredTrimmed "Street address is required" (fieldOf a "street")
    let e2 ← requiredTrimmed "City is required" (fieldOf a "city")
    let e3 ← stateFieldErrors (fieldOf a "state")
    let e4 := requiredFormat "ZIP code is required" "Invalid ZIP code format"
                isValidZipCode (fieldOf a "zipCode")
    pure (e1 ++ e2 ++ e3 ++ e4)

/-- `validateUser` (`userValidator.js` 74–140).  `none` models a thrown
`TypeError`: the first property read on a `null`/`undefined` argument, or a
`.trim()`/`.toUpperCase()` call on a truthy non-string field; `some` is the
returned `{ isValid, errors }`. -/
def validateUser (user : JSVal) : Option ValidationResult :=
  match user with
  | .undefined => none
  | .null => none
  | u => do
    let e1 := requiredFormat "Email is required" "Invalid email format"
                isValidEmail (fieldOf u "email")
    let e2 ← requiredName "First name is required"
                "First name must be 100 characters or less" (fieldOf u "firstName")
    let e3 ← requiredName "Last name is required"
                "Last name must be 100 characters or less" (fieldOf u "lastName")
    let e4 := requiredFormat "Date of birth is required"
                "Date of birth must be in YYYY-MM-DD format" isValidDate
                (fieldOf u "dateOfBirth")
    let e5 := requiredFormat "Phone number is required" "Invalid phone number format"
                isValidPhoneNumber (fieldOf u "phoneNumber")
    let e6 ← addressErrors (fieldOf u "address")
    let errors := e1 ++ e2 ++ e3 ++ e4 ++ e5 ++ e6
    pure ⟨errors.length == 0, errors⟩

/-- `isInsuranceActive` (`insuranceValidator.js` 34–52), with the current
moment `new Date()` passed in as the millisecond timestamp `now`.  `none`
models the `TypeError` of the property reads on a nullish argument; no
other step can throw. -/
def isInsuranceActive (now : Int) (insurance : JSVal) : Option Bool :=
  match insurance with
  | .undefined => none
  | .null => none
  | ins =>
    let effectiveDate := newDate (fieldOf ins "effectiveDate")
    if dateLt (some now) effectiveDate then
      some false
    else if truthy (fieldOf ins "terminationDate") then
      if dateLt (newDate (fieldOf ins "terminationDate")) (some now) then some false
      else some (match fieldOf ins "isActive" with | .boolean false => false | _ => true)
    else some (match fieldOf ins "isActive" with | .boolean false => false | _ => true)

/-- The message listing the legal plan types (`insuranceValidator.js` 81). -/
def planTypeBadMsg : String :=
  "Invalid plan type. Must be one of: " ++
    String.intercalate ", " (objectValues InsurancePlanType)

/-- The optional financial-amount pattern of `validateInsurance`
(`insuranceValidator.js` 97–119):
`if (v !== undefined) { if (typeof v !== 'number' || v < 0) push(msg) }`. -/
def nonNegNumberCheck (msg : String) (v : JSVal) : List String :=
  match v with
  | .undefined => []
  | .number n => if n < 0 then [msg] else []
  | _ => [msg]

/-- `validateInsurance` (`insuranceValidator.js` 59–153).  The three
`.trim()` segments are the only steps that can throw on a non-nullish
argument; the error list keeps the exact push order of the source. -/
def validateInsurance (insurance : JSVal) : Option ValidationResult :=
  match insurance with
  | .undefined => none
  | .null => none
  | ins => do
    let e2 ← requiredTrimmed "Insurance company name is required"
                (fieldOf ins "insuranceCompany")
    let e3 ← requiredTrimmed "Policy number is required" (fieldOf ins "policyNumber")
    let e5 ← requiredTrimmed "Plan name is required" (fieldOf ins "planName")
    let e1 := if !truthy (fieldOf ins "userId") then ["User ID is required"] else []
    let e4 := requiredFormat "Plan type is required" planTypeBadMsg
                isValidPlanType (fieldOf ins "planType")
    let e6 := requiredFormat "RxBIN is required" "RxBIN must be exactly 6 digits"
                isValidRxBIN (fieldOf ins "rxBIN")
    let e7 := nonNegNumberCheck "Deductible must be a non-negative number (in cents)"
                (fieldOf ins "deductible")
    let e8 := nonNegNumberCheck "Deductible met must be a non-negative number (in cents)"
                (fieldOf ins "deductibleMet")
    let e9 := nonNegNumberCheck "Out of pocket max must be a non-negative number (in cents)"
                (fieldOf ins "outOfPocketMax")
    let e10 := nonNegNumberCheck "Out of pocket met must be a non-negative number (in cents)"
                (fieldOf ins "outOfPocketMet")
    let e11 := requiredFormat "Effective date is required"
                 "Effective date must be in YYYY-MM-DD format" isValidDate
                 (fieldOf ins "effectiveDate")
    let e12 := if truthy (fieldOf ins "terminationDate") &&
                  !isValidDate (fieldOf ins "terminationDate")
               then ["Termination date must be in YYYY-MM-DD format"] else []
    let e13 := if truthy (fieldOf ins "effectiveDate") &&
                  truthy (fieldOf ins "terminationDate") then
                 (if dateLe (newDate (fieldOf ins "terminationDate"))
                            (newDate (fieldOf ins "effectiveDate"))
                  then ["Termination date must be after effective date"] else [])
               else []
    let e14 := if jsGT (fieldOf ins "deductibleMet") (fieldOf ins "deductible")
               then ["Deductible met cannot exceed total deductible"] else []
    let e15 := if jsGT (fieldOf ins "outOfPocketMet") (fieldOf ins "outOfPocketMax")
               then ["Out of pocket met cannot exceed out of pocket max"] else []
    let errors := e1 ++ e2 ++ e3 ++ e4 ++ e5 ++ e6 ++ e7 ++ e8 ++ e9 ++ e10 ++
                  e11 ++ e12 ++ e13 ++ e14 ++ e15
    pure ⟨errors.length == 0, errors⟩

/-- The message listing the legal medication forms (`src/unnamed/part_002`
74). -/
def medFormBadMsg : String :=
  "Invalid medication form. Must be one of: " ++
    String.intercalate ", " (objectValues MedicationForm)

/-- The message listing the legal prescription statuses
(`src/unnamed/part_002` 144). -/
def statusBadMsg : String :=
  "Invalid prescription status. Must be one of: " ++
    String.intercalate ", " (objectValues PrescriptionStatus)

/-- The required-positive-number pattern of `validatePrescription`
(`src/unnamed/part_002` 93–104): explicit `undefined`/`null` test, then
`typeof v !== 'number' || v < 1`. -/
def positiveNumberCheck (req bad : String) (v : JSVal) : List String :=
  match v with
  | .undefined => [req]
  | .null => [req]
  | .number n => if n < 1 then [bad] else []
  | _ => [bad]

/-- The required-non-negative-number pattern for `refillsAllowed`
(`src/unnamed/part_002` 107–111). -/
def nonNegRequiredCheck (req bad : String) (v : JSVal) : List String :=
  match v with
  | .undefined => [req]
  | .null => [req]
  | .number n => if n < 0 then [bad] else []
  | _ => [bad]

/-- The `refillsRemaining` block (`src/unnamed/part_002` 113–121): both
inner `if`s run whenever the field is not `undefined`. -/
def refillsRemainingErrors (rem allowed : JSVal) : List String :=
  match rem with
  | .undefined => []
  | v =>
      (match v with
       | .number n => if n < 0 then ["Refills remaining must be a non-negative number"] else []
       | _ => ["Refills remaining must be a non-negative number"]) ++
      (if jsGT v allowed then ["Refills remaining cannot exceed refills allowed"] else [])

/-- `validatePrescription` (`src/unnamed/part_002` 54–156).  The four
`.trim()` segments are the only steps that can throw on a non-nullish
argument; the error list keeps the exact push order of the source. -/
def validatePrescription (prescription : JSVal) : Option ValidationResult :=
  match prescription with
  | .undefined => none
  | .null => none
  | p => do
    let e2 ← requiredTrimmed "Medication name is required" (fieldOf p "medicationName")
    let e4 ← requiredTrimmed "Medication strength is required (e.g., \"500mg\", \"10mg/ml\")"
                (fieldOf p "strength")
    let e6 ← requiredTrimmed "Dosage instructions are required"
                (fieldOf p "dosageInstructions")
    let e11 ← requiredTrimmed "Prescriber name is required" (fieldOf p "prescriberName")
    let e1 := if !truthy (fieldOf p "userId") then ["User ID is required"] else []
    let e3 := requiredFormat "Medication form is required" medFormBadMsg
                isValidMedicationForm (fieldOf p "medicationForm")
    let e5 := if truthy (fieldOf p "ndc") && !isValidNDC (fieldOf p "ndc")
              then ["NDC must be in format: 12345-1234-12"] else []
    let e7 := positiveNumberCheck "Quantity is required" "Quantity must be a positive number"
                (fieldOf p "quantity")
    let e8 := positiveNumberCheck "Days supply is required" "Days supply must be a positive number"
                (fieldOf p "daysSupply")
    let e9 := nonNegRequiredCheck "Refills allowed is required"
                "Refills allowed must be a non-negative number" (fieldOf p "refillsAllowed")
    let e10 := refillsRemainingErrors (fieldOf p "refillsRemaining") (fieldOf p "refillsAllowed")
    let e12 := requiredFormat "Prescriber NPI is required" "Prescriber NPI must be exactly 10 digits"
                 isValidNPI (fieldOf p "prescriberNPI")
    let e13 := requiredFormat "Prescribed date is required"
                 "Prescribed date must be in YYYY-MM-DD format" isValidDate
                 (fieldOf p "prescribedDate")
    let e14 := if truthy (fieldOf p "status") && !isValidPrescriptionStatus (fieldOf p "status")
               then [statusBadMsg] else []
    let e15 := if truthy (fieldOf p "pharmacyNPI") && !isValidNPI (fieldOf p "pharmacyNPI")
               then ["Pharmacy NPI must be exactly 10 digits"] else []
    let errors := e1 ++ e2 ++ e3 ++ e4 ++ e5 ++ e6 ++ e7 ++ e8 ++ e9 ++ e10 ++
                  e11 ++ e12 ++ e13 ++ e14 ++ e15
    pure ⟨errors.length == 0, errors⟩


/-! ## Derived total forms of the validator segments

Each `...T` function is the value a segment yields when it does not throw;
the lemmas below show that a validator that returns normally returns exactly
the concatenation of these total segments, which is what the claims about
arbitrary records are proved against. -/

/-- `requiredTrimmed` when it returns normally. -/
def requiredTrimmedT (msg : String) (v : JSVal) : List String :=
  (requiredTrimmed msg v).getD []

/-- `requiredName` when it returns normally. -/
def requiredNameT (req long : String) (v : JSVal) : List String :=
  (requiredName req long v).getD []

/-- `stateFieldErrors` when it returns normally. -/
def stateFieldErrorsT (v : JSVal) : List String :=
  (stateFieldErrors v).getD []

/-- `addressErrors` when it returns normally, segment by segment. -/
def addressErrorsT (a : JSVal) : List String :=
  if !truthy a then ["Address is required"]
  else requiredTrimmedT "Street address is required" (fieldOf a "street") ++
       requiredTrimmedT "City is required" (fieldOf a "city") ++
       stateFieldErrorsT (fieldOf a "state") ++
       requiredFormat "ZIP code is required" "Invalid ZIP code format"
         isValidZipCode (fieldOf a "zipCode")

/-- The error list `validateUser` pushes, field by field, when it returns
normally on an object record. -/
def userErrorsT (fs : List (String × JSVal)) : List String :=
  requiredFormat "Email is required" "Invalid email format"
    isValidEmail (lookupField fs "email") ++
  requiredNameT "First name is required" "First name must be 100 characters or less"
    (lookupField fs "firstName") ++
  requiredNameT "Last name is required" "Last name must be 100 characters or less"
    (lookupField fs "lastName") ++
  requiredFormat "Date of birth is required" "Date of birth must be in YYYY-MM-DD format"
    isValidDate (lookupField fs "dateOfBirth") ++
  requiredFormat "Phone number is required" "Invalid phone number format"
    isValidPhoneNumber (lookupField fs "phoneNumber") ++
  addressErrorsT (lookupField fs "address")

/-- The error list `validateInsurance` pushes when it returns normally on an
object record. -/
def insuranceErrorsT (fs : List (String × JSVal)) : List String :=
  (if !truthy (lookupField fs "userId") then ["User ID is required"] else []) ++
  requiredTrimmedT "Insurance company name is required" (lookupField fs "insuranceCompany") ++
  requiredTrimmedT "Policy number is required" (lookupField fs "policyNumber") ++
  requiredFormat "Plan type is required" planTypeBadMsg
    isValidPlanType (lookupField fs "planType") ++
  requiredTrimmedT "Plan name is required" (lookupField fs "planName") ++
  requiredFormat "RxBIN is required" "RxBIN must be exactly 6 digits"
    isValidRxBIN (lookupField fs "rxBIN") ++
  nonNegNumberCheck "Deductible must be a non-negative number (in cents)"
    (lookupField fs "deductible") ++
  nonNegNumberCheck "Deductible met must be a non-negative number (in cents)"
    (lookupField fs "deductibleMet") ++
  nonNegNumberCheck "Out of pocket max must be a non-negative number (in cents)"
    (lookupField fs "outOfPocketMax") ++
  nonNegNumberCheck "Out of pocket met must be a non-negative number (in cents)"
    (lookupField fs "outOfPocketMet") ++
  requiredFormat "Effective date is required" "Effective date must be in YYYY-MM-DD format"
    isValidDate (lookupField fs "effectiveDate") ++
  (if truthy (lookupField fs "terminationDate") && !isValidDate (lookupField fs "terminationDate")
   then ["Termination date must be in YYYY-MM-DD format"] else []) ++
  (if truthy (lookupField fs "effectiveDate") && truthy (lookupField fs "terminationDate") then
     (if dateLe (newDate (lookupField fs "terminationDate"))
                (newDate (lookupField fs "effectiveDate"))
      then ["Termination date must be after effective date"] else [])
   else []) ++
  (if jsGT (lookupField fs "deductibleMet") (lookupField fs "deductible")
   then ["Deductible met cannot exceed total deductible"] else []) ++
  (if jsGT (lookupField fs "outOfPocketMet") (lookupField fs "outOfPocketMax")
   then ["Out of pocket met cannot exceed out of pocket max"] else [])

/-- The error list `validatePrescription` pushes when it returns normally on
an object record. -/
def rxErrorsT (fs : List (String × JSVal)) : List String :=
  (if !truthy (lookupField fs "userId") then ["User ID is required"] else []) ++
  requiredTrimmedT "Medication name is required" (lookupField fs "medicationName") ++
  requiredFormat "Medication form is required" medFormBadMsg
    isValidMedicationForm (lookupField fs "medicationForm") ++
  requiredTrimmedT "Medication strength is required (e.g., \"500mg\", \"10mg/ml\")"
    (lookupField fs "strength") ++
  (if truthy (lookupField fs "ndc") && !isValidNDC (lookupField fs "ndc")
   then ["NDC must be in format: 12345-1234-12"] else []) ++
  requiredTrimmedT "Dosage instructions are required" (lookupField fs "dosageInstructions") ++
  positiveNumberCheck "Quantity is required" "Quantity must be a positive number"
    (lookupField fs "quantity") ++
  positiveNumberCheck "Days supply is required" "Days supply must be a positive number"
    (lookupField fs "daysSupply") ++
  nonNegRequiredCheck "Refills allowed is required" "Refills allowed must be a non-negative number"
    (lookupField fs "refillsAllowed") ++
  refillsRemainingErrors (lookupField fs "refillsRemaining") (lookupField fs "refillsAllowed") ++
  requiredTrimmedT "Prescriber name is required" (lookupField fs "prescriberName") ++
  requiredFormat "Prescriber NPI is required" "Prescriber NPI must be exactly 10 digits"
    isValidNPI (lookupField fs "prescriberNPI") ++
  requiredFormat "Prescribed date is required" "Prescribed date must be in YYYY-MM-DD format"
    isValidDate (lookupField fs "prescribedDate") ++
  (if truthy (lookupField fs "status") && !isValidPrescriptionStatus (lookupField fs "status")
   then [statusBadMsg] else []) ++
  (if truthy (lookupField fs "pharmacyNPI") && !isValidNPI (lookupField fs "pharmacyNPI")
   then ["Pharmacy NPI must be exactly 10 digits"] else [])

/-- The default the `isActive` override flag contributes once the date tests
pass: `insurance.isActive !== false`, true unless the flag is literally
`false` (so missing, `null`, `0`, strings all count as active). -/
def isActiveDefault (fs : List (String × JSVal)) : Bool :=
  match lookupField fs "isActive" with
  | .boolean false => false
  | _ => true

/-- A field value on which the `.trim()`-guarded segments cannot throw:
whenever it is truthy it is a string. -/
def trimSafe (v : JSVal) : Prop :=
  truthy v = true → ∃ s, v = JSVal.string s

/-- An `address` value on which the nested block of `validateUser` cannot
throw: when it is an object, its `street`/`city` are trim-safe and a truthy
`state` is a string. -/
def addressSafe (a : JSVal) : Prop :=
  ∀ afs, a = JSVal.object afs →
    trimSafe (lookupField afs "street") ∧ trimSafe (lookupField afs "city") ∧
    trimSafe (lookupField afs "state")

/-! ## Well-formed records (the documented constraints of spec §3)

A record structure per entity, an encoder to the JavaScript object the
validator receives, and the conjunction of every documented constraint.
An optional field that is absent is encoded as the value `undefined`,
which the validators cannot distinguish from a missing key. -/

/-- A user record of the documented shape (spec §3, UserRecord). -/
structure UserRecord where
  email : String
  firstName : String
  lastName : String
  dateOfBirth : String
  phoneNumber : String
  street : String
  city : String
  state : String
  zipCode : String

/-- The object `validateUser` receives for a `UserRecord`. -/
def userToJS (u : UserRecord) : JSVal :=
  .object [("email", .string u.email), ("firstName", .string u.firstName),
           ("lastName", .string u.lastName), ("dateOfBirth", .string u.dateOfBirth),
           ("phoneNumber", .string u.phoneNumber),
           ("address", .object [("street", .string u.street), ("city", .string u.city),
                                ("state", .string u.state), ("zipCode", .string u.zipCode)])]

/-- Every documented constraint of a user record: email/phone/date/ZIP
formats, names nonempty after trim and at most 100 characters, a complete
address with a valid state code. -/
def UserWellFormed (u : UserRecord) : Prop :=
  emailPattern u.email = true ∧
  trimChars u.firstName.data ≠ [] ∧ u.firstName.length ≤ 100 ∧
  trimChars u.lastName.data ≠ [] ∧ u.lastName.length ≤ 100 ∧
  isValidDate (.string u.dateOfBirth) = true ∧
  phonePattern u.phoneNumber = true ∧
  trimChars u.street.data ≠ [] ∧ trimChars u.city.data ≠ [] ∧
  validStates.contains (jsToUpperCase u.state) = true ∧
  zipPattern u.zipCode = true

/-- `undefined` for an absent optional string field, the string otherwise. -/
def optStr : Option String → JSVal
  | some s => .string s
  | none => .undefined

/-- `undefined` for an absent optional numeric field, the number otherwise. -/
def optNum : Option Int → JSVal
  | some n => .number n
  | none => .undefined

/-- An insurance record of the documented shape (spec §3, InsuranceRecord). -/
structure InsuranceRecord where
  userId : String
  insuranceCompany : String
  policyNumber : String
  planType : String
  planName : String
  rxBIN : String
  effectiveDate : String
  terminationDate : Option String
  deductible : Option Int
  deductibleMet : Option Int
  outOfPocketMax : Option Int
  outOfPocketMet : Option Int

/-- The object `validateInsurance` receives for an `InsuranceRecord`. -/
def insuranceToJS (r : InsuranceRecord) : JSVal :=
  .object [("userId", .string r.userId),
           ("insuranceCompany", .string r.insuranceCompany),
           ("policyNumber", .string r.policyNumber),
           ("planType", .string r.planType),
           ("planName", .string r.planName),
           ("rxBIN", .string r.rxBIN),
           ("effectiveDate", .string r.effectiveDate),
           ("terminationDate", optStr r.terminationDate),
           ("deductible", optNum r.deductible),
           ("deductibleMet", optNum r.deductibleMet),
           ("outOfPocketMax", optNum r.outOfPocketMax),
           ("outOfPocketMet", optNum r.outOfPocketMet)]

/-- Every documented constraint of an insurance record: nonempty
identifier and names, a vocabulary plan type, a 6-digit RxBIN,
non-negative amounts with `deductibleMet ≤ deductible` and
`outOfPocketMet ≤ outOfPocketMax` when both sides are present, valid
dates with `terminationDate` strictly after `effectiveDate`. -/
def InsuranceWellFormed (r : InsuranceRecord) : Prop :=
  r.userId ≠ "" ∧
  trimChars r.insuranceCompany.data ≠ [] ∧
  trimChars r.policyNumber.data ≠ [] ∧
  r.planType ∈ objectValues InsurancePlanType ∧
  trimChars r.planName.data ≠ [] ∧
  rxBINPattern r.rxBIN = true ∧
  isValidDate (.string r.effectiveDate) = true ∧
  (∀ t ∈ r.terminationDate, isValidDate (.string t) = true ∧
     dateLt (newDateOfString r.effectiveDate) (newDateOfString t) = true) ∧
  (∀ n ∈ r.deductible, 0 ≤ n) ∧ (∀ n ∈ r.deductibleMet, 0 ≤ n) ∧
  (∀ n ∈ r.outOfPocketMax, 0 ≤ n) ∧ (∀ n ∈ r.outOfPocketMet, 0 ≤ n) ∧
  (∀ a ∈ r.deductible, ∀ b ∈ r.deductibleMet, b ≤ a) ∧
  (∀ a ∈ r.outOfPocketMax, ∀ b ∈ r.outOfPocketMet, b ≤ a)

/-- A prescription record of the documented shape (spec §3,
PrescriptionRecord). -/
structure PrescriptionRecord where
  userId : String
  insuranceId : Option String
  medicationName : String
  medicationForm : String
  strength : String
  ndc : Option String
  dosageInstructions : String
  quantity : Int
  daysSupply : Int
  refillsAllowed : Int
  refillsRemaining : Option Int
  prescriberName : String
  prescriberNPI : String
  prescribedDate : String
  status : Option String
  pharmacyNPI : Option String

/-- The object `validatePrescription` receives for a `PrescriptionRecord`. -/
def prescriptionToJS (r : PrescriptionRecord) : JSVal :=
  .object [("userId", .string r.userId),
           ("insuranceId", optStr r.insuranceId),
           ("medicationName", .string r.medicationName),
           ("medicationForm", .string r.medicationForm),
           ("strength", .string r.strength),
           ("ndc", optStr r.ndc),
           ("dosageInstructions", .string r.dosageInstructions),
           ("quantity", .number r.quantity),
           ("daysSupply", .number r.daysSupply),
           ("refillsAllowed", .number r.refillsAllowed),
           ("refillsRemaining", optNum r.refillsRemaining),
           ("prescriberName", .string r.prescriberName),
           ("prescriberNPI", .string r.prescriberNPI),
           ("prescribedDate", .string r.prescribedDate),
           ("status", optStr r.status),
           ("pharmacyNPI", optStr r.pharmacyNPI)]

/-- Every documented constraint of a prescription record
(`insuranceId` carries none). -/
def PrescriptionWellFormed (r : PrescriptionRecord) : Prop :=
  r.userId ≠ "" ∧
  trimChars r.medicationName.data ≠ [] ∧
  r.medicationForm ∈ objectValues MedicationForm ∧
  trimChars r.strength.data ≠ [] ∧
  (∀ n ∈ r.ndc, ndcPattern n = true) ∧
  trimChars r.dosageInstructions.data ≠ [] ∧
  1 ≤ r.quantity ∧ 1 ≤ r.daysSupply ∧ 0 ≤ r.refillsAllowed ∧
  (∀ n ∈ r.refillsRemaining, 0 ≤ n ∧ n ≤ r.refillsAllowed) ∧
  trimChars r.prescriberName.data ≠ [] ∧
  npiPattern r.prescriberNPI = true ∧
  isValidDate (.string r.prescribedDate) = true ∧
  (∀ s ∈ r.status, s ∈ objectValues PrescriptionStatus) ∧
  (∀ n ∈ r.pharmacyNPI, npiPattern n = true)

/-! ## Required-field tables for the presence-error claims

Each entry is a field name, its presence error, and the format/range
messages the validator could otherwise emit about that same field. -/

/-- `validateUser`: required fields checked by truthiness only. -/
def userPlainRequired : List (String × String × List String) :=
  [("email", "Email is required", ["Invalid email format"]),
   ("dateOfBirth", "Date of birth is required", ["Date of birth must be in YYYY-MM-DD format"]),
   ("phoneNumber", "Phone number is required", ["Invalid phone number format"]),
   ("address", "Address is required",
    ["Street address is required", "City is required", "State is required",
     "Invalid state code (must be 2-letter code like CA, NY)",
     "ZIP code is required", "Invalid ZIP code format"])]

/-- `validateUser`: required free-text fields with the empty-after-trim
test. -/
def userTrimRequired : List (String × String × List String) :=
  [("firstName", "First name is required", ["First name must be 100 characters or less"]),
   ("lastName", "Last name is required", ["Last name must be 100 characters or less"])]

/-- The nested address fields checked by truthiness only. -/
def addressPlainRequired : List (String × String × List String) :=
  [("state", "State is required", ["Invalid state code (must be 2-letter code like CA, NY)"]),
   ("zipCode", "ZIP code is required", ["Invalid ZIP code format"])]

/-- The nested address free-text fields with the empty-after-trim test. -/
def addressTrimRequired : List (String × String × List String) :=
  [("street", "Street address is required", []),
   ("city", "City is required", [])]

/-- `validateInsurance`: required fields checked by truthiness only. -/
def insurancePlainRequired : List (String × String × List String) :=
  [("userId", "User ID is required", []),
   ("planType", "Plan type is required", [planTypeBadMsg]),
   ("rxBIN", "RxBIN is required", ["RxBIN must be exactly 6 digits"]),
   ("effectiveDate", "Effective date is required", ["Effective date must be in YYYY-MM-DD format"])]

/-- `validateInsurance`: required free-text fields with the
empty-after-trim test. -/
def insuranceTrimRequired : List (String × String × List String) :=
  [("insuranceCompany", "Insurance company name is required", []),
   ("policyNumber", "Policy number is required", []),
   ("planName", "Plan name is required", [])]

/-- `validatePrescription`: required fields checked by truthiness only. -/
def rxPlainRequired : List (String × String × List String) :=
  [("userId", "User ID is required", []),
   ("medicationForm", "Medication form is required", [medFormBadMsg]),
   ("prescriberNPI", "Prescriber NPI is required", ["Prescriber NPI must be exactly 10 digits"]),
   ("prescribedDate", "Prescribed date is required", ["Prescribed date must be in YYYY-MM-DD format"])]

/-- `validatePrescription`: required free-text fields with the
empty-after-trim test. -/
def rxTrimRequired : List (String × String × List String) :=
  [("medicationName", "Medication name is required", []),
   ("strength", "Medication strength is required (e.g., \"500mg\", \"10mg/ml\")", []),
   ("dosageInstructions", "Dosage instructions are required", []),
   ("prescriberName", "Prescriber name is required", [])]

/-- `validatePrescription`: required numeric fields, absent meaning
`undefined` or `null`. -/
def rxNumberRequired : List (String × String × List String) :=
  [("quantity", "Quantity is required", ["Quantity must be a positive number"]),
   ("daysSupply", "Days supply is required", ["Days supply must be a positive number"]),
   ("refillsAllowed", "Refills allowed is required", ["Refills allowed must be a non-negative number"])]

/-! ## Concrete records used by individual claims -/

/-- Spec §8 scenario 1: the fully valid sample user. -/
def specScenarioUser : JSVal :=
  .object [("email", .string "a@b.com"), ("firstName", .string "Jo"),
           ("lastName", .string "Lee"), ("dateOfBirth", .string "1990-05-01"),
           ("phoneNumber", .string "12025551234"),
           ("address", .object [("street", .string "1 Main St"),
                                ("city", .string "Springfield"),
                                ("state", .string "IL"), ("zipCode", .string "62701")])]

/-- A fully valid insurance record except that `userId` is the whitespace
string `" "` — empty after trimming, yet accepted. -/
def insuranceBlankUserId : JSVal :=
  .object [("userId", .string " "), ("insuranceCompany", .string "Acme Health"),
           ("policyNumber", .string "P123"), ("planType", .string "PPO"),
           ("planName", .string "Gold"), ("rxBIN", .string "123456"),
           ("effectiveDate", .string "2024-01-01")]

/-- A valid user record except that `email` is the whitespace string
`" "` — empty after trimming, yet reported with a format error. -/
def userBlankEmail : JSVal :=
  .object [("email", .string " "), ("firstName", .string "Jo"),
           ("lastName", .string "Lee"), ("dateOfBirth", .string "1990-05-01"),
           ("phoneNumber", .string "12025551234"),
           ("address", .object [("street", .string "1 Main St"),
                                ("city", .string "Springfield"),
                                ("state", .string "IL"), ("zipCode", .string "62701")])]

/-- An otherwise valid insurance record with `deductible = -10` and
`deductibleMet = -5`: both per-field range checks fail and the cross-field
check still fires, three errors about the same field pair, the cross-field
one appended last. -/
def insuranceNegativeDeductibles : JSVal :=
  .object [("userId", .string "u1"), ("insuranceCompany", .string "Acme Health"),
           ("policyNumber", .string "P123"), ("planType", .string "PPO"),
           ("planName", .string "Gold"), ("rxBIN", .string "123456"),
           ("effectiveDate", .string "2024-01-01"),
           ("deductible", .number (-10)), ("deductibleMet", .number (-5))]

/-- An insurance record with an arbitrarily large `deductibleMet` and no
`deductible` at all. -/
def insuranceNoCeiling : JSVal :=
  .object [("userId", .string "u1"), ("insuranceCompany", .string "Acme Health"),
           ("policyNumber", .string "P123"), ("planType", .string "PPO"),
           ("planName", .string "Gold"), ("rxBIN", .string "123456"),
           ("effectiveDate", .string "2024-01-01"),
           ("deductibleMet", .number 1000000)]

/-- An insurance record effective 2024-01-01 and terminating 2024-06-15. -/
def insuranceSameDay : JSVal :=
  .object [("effectiveDate", .string "2024-01-01"),
           ("terminationDate", .string "2024-06-15")]



/-! ## Supporting lemmas: segment characterizations -/

/-- A list with a member is not length 0. -/
theorem length_beq_zero_of_mem {x : String} {l : List String} (h : x ∈ l) :
    (l.length == 0) = false := by
  cases l with
  | nil => simp at h
  | cons a t => simp

theorem requiredTrimmed_falsy (m : String) (v : JSVal) (h : truthy v = false) :
    requiredTrimmed m v = some [m] := by
  simp [requiredTrimmed, h]

theorem requiredTrimmed_some_eq {m : String} {v : JSVal} {L : List String}
    (h : requiredTrimmed m v = some L) : L = requiredTrimmedT m v := by
  simp [requiredTrimmedT, h]

theorem requiredTrimmed_isSome {v : JSVal} (m : String) (h : trimSafe v) :
    requiredTrimmed m v = some (requiredTrimmedT m v) := by
  unfold requiredTrimmed requiredTrimmedT
  cases ht : truthy v with
  | false => simp [requiredTrimmed, ht]
  | true =>
      obtain ⟨s, rfl⟩ := h ht
      simp [requiredTrimmed, ht]

theorem requiredTrimmedT_falsy (m : String) (v : JSVal) (h : truthy v = false) :
    requiredTrimmedT m v = [m] := by
  simp [requiredTrimmedT, requiredTrimmed, h]

theorem requiredTrimmedT_trimEmpty (m s : String) (h : trimChars s.data = []) :
    requiredTrimmedT m (.string s) = [m] := by
  by_cases hs : s = ""
  · subst hs; simp [requiredTrimmedT, requiredTrimmed, truthy]
  · have : (jsTrim s).length = 0 := by simp [jsTrim, h]
    simp [requiredTrimmedT, requiredTrimmed, truthy, hs, this]

theorem mem_requiredTrimmedT {x m : String} {v : JSVal}
    (h : x ∈ requiredTrimmedT m v) : x = m := by
  unfold requiredTrimmedT requiredTrimmed at h
  cases ht : truthy v <;> rw [ht] at h
  · simp at h; exact h
  · cases v <;> simp at h
    exact h.2

theorem requiredFormat_falsy (req bad : String) (t : JSVal → Bool) (v : JSVal)
    (h : truthy v = false) : requiredFormat req bad t v = [req] := by
  simp [requiredFormat, h]

theorem requiredFormat_ok (req bad : String) (t : JSVal → Bool) (v : JSVal)
    (h1 : truthy v = true) (h2 : t v = true) : requiredFormat req bad t v = [] := by
  simp [requiredFormat, h1, h2]

theorem mem_requiredFormat {x req bad : String} {t : JSVal → Bool} {v : JSVal}
    (h : x ∈ requiredFormat req bad t v) : x = req ∨ x = bad := by
  unfold requiredFormat at h
  split at h
  · simp at h; exact Or.inl h
  · split at h <;> simp at h
    exact Or.inr h

theorem requiredName_some_eq {req long : String} {v : JSVal} {L : List String}
    (h : requiredName req long v = some L) : L = requiredNameT req long v := by
  simp [requiredNameT, h]

theorem requiredName_isSome {v : JSVal} (req long : String) (h : trimSafe v) :
    requiredName req long v = some (requiredNameT req long v) := by
  unfold requiredName requiredNameT
  cases ht : truthy v with
  | false => simp [requiredName, ht]
  | true =>
      obtain ⟨s, rfl⟩ := h ht
      simp [requiredName, ht]

theorem requiredNameT_falsy (req long : String) (v : JSVal) (h : truthy v = false) :
    requiredNameT req long v = [req] := by
  simp [requiredNameT, requiredName, h]

theorem requiredNameT_trimEmpty (req long s : String) (h : trimChars s.data = []) :
    requiredNameT req long (.string s) = [req] := by
  by_cases hs : s = ""
  · subst hs; simp [requiredNameT, requiredName, truthy]
  · have : (jsTrim s).length = 0 := by simp [jsTrim, h]
    simp [requiredNameT, requiredName, truthy, hs, this]

theorem mem_requiredNameT {x req long : String} {v : JSVal}
    (h : x ∈ requiredNameT req long v) : x = req ∨ x = long := by
  unfold requiredNameT requiredName at h
  cases ht : truthy v <;> rw [ht] at h
  · simp at h; exact Or.inl h
  · cases v <;> simp at h
    split at h
    · simp_all
    · split at h <;> simp_all

theorem stateFieldErrors_some_eq {v : JSVal} {L : List String}
    (h : stateFieldErrors v = some L) : L = stateFieldErrorsT v := by
  simp [stateFieldErrorsT, h]

theorem stateFieldErrors_isSome {v : JSVal} (h : trimSafe v) :
    stateFieldErrors v = some (stateFieldErrorsT v) := by
  unfold stateFieldErrors stateFieldErrorsT
  cases ht : truthy v with
  | false => simp [stateFieldErrors, ht]
  | true =>
      obtain ⟨s, rfl⟩ := h ht
      simp [stateFieldErrors, isValidStateCode, ht]

theorem stateFieldErrorsT_falsy (v : JSVal) (h : truthy v = false) :
    stateFieldErrorsT v = ["State is required"] := by
  simp [stateFieldErrorsT, stateFieldErrors, h]

theorem mem_stateFieldErrorsT {x : String} {v : JSVal}
    (h : x ∈ stateFieldErrorsT v) :
    x = "State is required" ∨ x = "Invalid state code (must be 2-letter code like CA, NY)" := by
  unfold stateFieldErrorsT stateFieldErrors at h
  cases ht : truthy v <;> rw [ht] at h
  · simp at h; exact Or.inl h
  · cases hsc : isValidStateCode v <;> rw [hsc] at h
    · simp at h
    · split at h <;> simp_all

theorem mem_nonNegNumberCheck {x m : String} {v : JSVal}
    (h : x ∈ nonNegNumberCheck m v) : x = m := by
  unfold nonNegNumberCheck at h
  cases v <;> simp_all

theorem mem_positiveNumberCheck {x req bad : String} {v : JSVal}
    (h : x ∈ positiveNumberCheck req bad v) : x = req ∨ x = bad := by
  unfold positiveNumberCheck at h
  cases v <;> simp_all

theorem mem_nonNegRequiredCheck {x req bad : String} {v : JSVal}
    (h : x ∈ nonNegRequiredCheck req bad v) : x = req ∨ x = bad := by
  unfold nonNegRequiredCheck at h
  cases v <;> simp_all

theorem mem_refillsRemainingErrors {x : String} {rem allowed : JSVal}
    (h : x ∈ refillsRemainingErrors rem allowed) :
    x = "Refills remaining must be a non-negative number" ∨
    x = "Refills remaining cannot exceed refills allowed" := by
  unfold refillsRemainingErrors at h
  cases rem <;> simp_all <;> tauto

theorem jsGT_undef_right (v : JSVal) : jsGT v .undefined = false := by
  cases v <;> simp [jsGT, toPrimitive, toNumber]


/-- `trimSafe` holds for `undefined` (it is falsy). -/
theorem trimSafe_undef : trimSafe .undefined := by
  intro h; simp [truthy] at h

/-! ## Decomposition of the validators on object records -/

theorem optionBind_eq_bind {α β : Type} (x : Option α) (f : α → Option β) :
    x >>= f = x.bind f := rfl

theorem optionPure_eq_some {α : Type} (a : α) : (pure a : Option α) = some a := rfl

theorem addressErrors_some_eq {a : JSVal} {L : List String}
    (h : addressErrors a = some L) : L = addressErrorsT a := by
  unfold addressErrors at h
  unfold addressErrorsT
  cases ht : truthy a <;> rw [ht] at h
  · simp at h; simp [← h, ht]
  · simp only [Bool.not_true, Bool.false_eq_true, if_false, optionBind_eq_bind,
      optionPure_eq_some, Option.bind_eq_some, Option.some.injEq] at h
    obtain ⟨L1, h1, L2, h2, L3, h3, hr⟩ := h
    rw [requiredTrimmed_some_eq h1, requiredTrimmed_some_eq h2,
        stateFieldErrors_some_eq h3] at hr
    simp [← hr, ht]

theorem addressErrors_eq_some {a : JSVal} (h : addressSafe a) :
    addressErrors a = some (addressErrorsT a) := by
  unfold addressErrors addressErrorsT
  cases ht : truthy a with
  | false => simp [ht]
  | true =>
      have hsafe : trimSafe (fieldOf a "street") ∧ trimSafe (fieldOf a "city") ∧
          trimSafe (fieldOf a "state") := by
        cases a with
        | object afs => exact h afs rfl
        | undefined => simp [truthy] at ht
        | null => simp [truthy] at ht
        | boolean b => exact ⟨trimSafe_undef, trimSafe_undef, trimSafe_undef⟩
        | number n => exact ⟨trimSafe_undef, trimSafe_undef, trimSafe_undef⟩
        | string s => exact ⟨trimSafe_undef, trimSafe_undef, trimSafe_undef⟩
      obtain ⟨hs, hc, hst⟩ := hsafe
      have h1 := requiredTrimmed_isSome "Street address is required" hs
      have h2 := requiredTrimmed_isSome "City is required" hc
      have h3 := stateFieldErrors_isSome hst
      simp [ht, h1, h2, h3, optionBind_eq_bind, optionPure_eq_some]

theorem validateUser_some_eq {fs : List (String × JSVal)} {r : ValidationResult}
    (h : validateUser (.object fs) = some r) :
    r = ⟨(userErrorsT fs).length == 0, userErrorsT fs⟩ := by
  unfold validateUser at h
  simp only [fieldOf, optionBind_eq_bind, optionPure_eq_some, Option.bind_eq_some,
    Option.some.injEq] at h
  obtain ⟨L2, h2, L3, h3, L6, h6, hr⟩ := h
  rw [requiredName_some_eq h2, requiredName_some_eq h3, addressErrors_some_eq h6] at hr
  exact hr.symm

theorem validateUser_eq_some (fs : List (String × JSVal))
    (h2 : trimSafe (lookupField fs "firstName"))
    (h3 : trimSafe (lookupField fs "lastName"))
    (h6 : addressSafe (lookupField fs "address")) :
    validateUser (.object fs) = some ⟨(userErrorsT fs).length == 0, userErrorsT fs⟩ := by
  unfold validateUser
  simp only [fieldOf]
  rw [requiredName_isSome _ _ h2, requiredName_isSome _ _ h3, addressErrors_eq_some h6]
  rfl

theorem validateInsurance_some_eq {fs : List (String × JSVal)} {r : ValidationResult}
    (h : validateInsurance (.object fs) = some r) :
    r = ⟨(insuranceErrorsT fs).length == 0, insuranceErrorsT fs⟩ := by
  unfold validateInsurance at h
  simp only [fieldOf, optionBind_eq_bind, optionPure_eq_some, Option.bind_eq_some,
    Option.some.injEq] at h
  obtain ⟨L2, h2, L3, h3, L5, h5, hr⟩ := h
  rw [requiredTrimmed_some_eq h2, requiredTrimmed_some_eq h3,
      requiredTrimmed_some_eq h5] at hr
  exact hr.symm

theorem validateInsurance_eq_some (fs : List (String × JSVal))
    (h2 : trimSafe (lookupField fs "insuranceCompany"))
    (h3 : trimSafe (lookupField fs "policyNumber"))
    (h5 : trimSafe (lookupField fs "planName")) :
    validateInsurance (.object fs) =
      some ⟨(insuranceErrorsT fs).length == 0, insuranceErrorsT fs⟩ := by
  unfold validateInsurance
  simp only [fieldOf]
  rw [requiredTrimmed_isSome _ h2, requiredTrimmed_isSome _ h3, requiredTrimmed_isSome _ h5]
  rfl

theorem validatePrescription_some_eq {fs : List (String × JSVal)} {r : ValidationResult}
    (h : validatePrescription (.object fs) = some r) :
    r = ⟨(rxErrorsT fs).length == 0, rxErrorsT fs⟩ := by
  unfold validatePrescription at h
  simp only [fieldOf, optionBind_eq_bind, optionPure_eq_some, Option.bind_eq_some,
    Option.some.injEq] at h
  obtain ⟨L2, h2, L4, h4, L6, h6, L11, h11, hr⟩ := h
  rw [requiredTrimmed_some_eq h2, requiredTrimmed_some_eq h4,
      requiredTrimmed_some_eq h6, requiredTrimmed_some_eq h11] at hr
  exact hr.symm

theorem validatePrescription_eq_some (fs : List (String × JSVal))
    (h2 : trimSafe (lookupField fs "medicationName"))
    (h4 : trimSafe (lookupField fs "strength"))
    (h6 : trimSafe (lookupField fs "dosageInstructions"))
    (h11 : trimSafe (lookupField fs "prescriberName")) :
    validatePrescription (.object fs) =
      some ⟨(rxErrorsT fs).length == 0, rxErrorsT fs⟩ := by
  unfold validatePrescription
  simp only [fieldOf]
  rw [requiredTrimmed_isSome _ h2, requiredTrimmed_isSome _ h4,
      requiredTrimmed_isSome _ h6, requiredTrimmed_isSome _ h11]
  rfl


/-! ## Membership utilities for the per-field error segments -/

theorem mem_ite_nil {x : String} {c : Prop} [Decidable c] {l : List String}
    (h : x ∈ if c then l else []) : x ∈ l := by
  split at h
  · exact h
  · simp at h

theorem addressErrorsT_falsy {a : JSVal} (h : truthy a = false) :
    addressErrorsT a = ["Address is required"] := by
  simp [addressErrorsT, h]

theorem addressErrorsT_object (afs : List (String × JSVal)) :
    addressErrorsT (.object afs) =
      requiredTrimmedT "Street address is required" (lookupField afs "street") ++
      requiredTrimmedT "City is required" (lookupField afs "city") ++
      stateFieldErrorsT (lookupField afs "state") ++
      requiredFormat "ZIP code is required" "Invalid ZIP code format"
        isValidZipCode (lookupField afs "zipCode") := by
  simp [addressErrorsT, truthy, fieldOf]

theorem jsGT_number (a b : Int) : jsGT (.number a) (.number b) = decide (b < a) := rfl

theorem mem_addressErrorsT {x : String} {a : JSVal} (h : x ∈ addressErrorsT a) :
    x ∈ (["Address is required", "Street address is required", "City is required",
          "State is required", "Invalid state code (must be 2-letter code like CA, NY)",
          "ZIP code is required", "Invalid ZIP code format"] : List String) := by
  unfold addressErrorsT at h
  cases ht : truthy a <;> rw [ht] at h
  · simp at h; simp [h]
  · simp only [Bool.not_true, Bool.false_eq_true, if_false, List.mem_append] at h
    rcases h with ((h | h) | h) | h
    · simp [mem_requiredTrimmedT h]
    · simp [mem_requiredTrimmedT h]
    · rcases mem_stateFieldErrorsT h with h | h <;> simp [h]
    · rcases mem_requiredFormat h with h | h <;> simp [h]

theorem mem_refillsRemainingErrors_allowedUndef {x : String} {rem : JSVal}
    (h : x ∈ refillsRemainingErrors rem .undefined) :
    x = "Refills remaining must be a non-negative number" := by
  unfold refillsRemainingErrors at h
  cases rem <;> simp_all [jsGT_undef_right]

/-! ## Required-field case analyses (used by the presence-error and
cross-field-ceiling claims) -/

theorem c3_user_plain :
    ∀ f pm fms, (f, pm, fms) ∈ userPlainRequired →
      ∀ fs r, truthy (lookupField fs f) = false →
        validateUser (.object fs) = some r →
        r.isValid = false ∧ pm ∈ r.errors ∧ ∀ m ∈ fms, m ∉ r.errors := by
  intro f pm fms ht fs r hfalsy hok
  have hr := validateUser_some_eq hok
  subst hr
  simp only [userPlainRequired, List.mem_cons, List.not_mem_nil, or_false, Prod.mk.injEq] at ht
  rcases ht with ⟨rfl, rfl, rfl⟩ | ⟨rfl, rfl, rfl⟩ | ⟨rfl, rfl, rfl⟩ | ⟨rfl, rfl, rfl⟩
  · have hseg := requiredFormat_falsy "Email is required" "Invalid email format" isValidEmail (lookupField fs "email") hfalsy
    have hmem : ("Email is required") ∈ userErrorsT fs := by simp [userErrorsT, hseg]
    refine ⟨length_beq_zero_of_mem hmem, hmem, ?_⟩
    intro m hm
    simp only [List.mem_cons, List.not_mem_nil, or_false] at hm
    subst hm
    intro hmem2
    simp only [userErrorsT, hseg, List.mem_append] at hmem2
    rcases hmem2 with (((((h) | h) | h) | h) | h) | h
    · exact absurd (List.mem_singleton.mp h) (by decide)
    · rcases mem_requiredNameT h with h | h <;> exact absurd h (by decide)
    · rcases mem_requiredNameT h with h | h <;> exact absurd h (by decide)
    · rcases mem_requiredFormat h with h | h <;> exact absurd h (by decide)
    · rcases mem_requiredFormat h with h | h <;> exact absurd h (by decide)
    · exact absurd (mem_addressErrorsT h) (by decide)
  · have hseg := requiredFormat_falsy "Date of birth is required" "Date of birth must be in YYYY-MM-DD format" isValidDate (lookupField fs "dateOfBirth") hfalsy
    have hmem : ("Date of birth is required") ∈ userErrorsT fs := by simp [userErrorsT, hseg]
    refine ⟨length_beq_zero_of_mem hmem, hmem, ?_⟩
    intro m hm
    simp only [List.mem_cons, List.not_mem_nil, or_false] at hm
    subst hm
    intro hmem2
    simp only [userErrorsT, hseg, List.mem_append] at hmem2
    rcases hmem2 with (((((h) | h) | h) | h) | h) | h
    · rcases mem_requiredFormat h with h | h <;> exact absurd h (by decide)
    · rcases mem_requiredNameT h with h | h <;> exact absurd h (by decide)
    · rcases mem_requiredNameT h with h | h <;> exact absurd h (by decide)
    · exact absurd (List.mem_singleton.mp h) (by decide)
    · rcases mem_requiredFormat h with h | h <;> exact absurd h (by decide)
    · exact absurd (mem_addressErrorsT h) (by decide)
  · have hseg := requiredFormat_falsy "Phone number is required" "Invalid phone number format" isValidPhoneNumber (lookupField fs "phoneNumber") hfalsy
    have hmem : ("Phone number is required") ∈ userErrorsT fs := by simp [userErrorsT, hseg]
    refine ⟨length_beq_zero_of_mem hmem, hmem, ?_⟩
    intro m hm
    simp only [List.mem_cons, List.not_mem_nil, or_false] at hm
    subst hm
    intro hmem2
    simp only [userErrorsT, hseg, List.mem_append] at hmem2
    rcases hmem2 with (((((h) | h) | h) | h) | h) | h
    · rcases mem_requiredFormat h with h | h <;> exact absurd h (by decide)
    · rcases mem_requiredNameT h with h | h <;> exact absurd h (by decide)
    · rcases mem_requiredNameT h with h | h <;> exact absurd h (by decide)
    · rcases mem_requiredFormat h with h | h <;> exact absurd h (by decide)
    · exact absurd (List.mem_singleton.mp h) (by decide)
    · exact absurd (mem_addressErrorsT h) (by decide)
  · have hseg := addressErrorsT_falsy hfalsy
    have hmem : ("Address is required") ∈ userErrorsT fs := by simp [userErrorsT, hseg]
    refine ⟨length_beq_zero_of_mem hmem, hmem, ?_⟩
    intro m hm
    simp only [List.mem_cons, List.not_mem_nil, or_false] at hm
    rcases hm with rfl | rfl | rfl | rfl | rfl | rfl
    · intro hmem2
      simp only [userErrorsT, hseg, List.mem_append] at hmem2
      rcases hmem2 with (((((h) | h) | h) | h) | h) | h
      · rcases mem_requiredFormat h with h | h <;> exact absurd h (by decide)
      · rcases mem_requiredNameT h with h | h <;> exact absurd h (by decide)
      · rcases mem_requiredNameT h with h | h <;> exact absurd h (by decide)
      · rcases mem_requiredFormat h with h | h <;> exact absurd h (by decide)
      · rcases mem_requiredFormat h with h | h <;> exact absurd h (by decide)
      · exact absurd (List.mem_singleton.mp h) (by decide)
    · intro hmem2
      simp only [userErrorsT, hseg, List.mem_append] at hmem2
      rcases hmem2 with (((((h) | h) | h) | h) | h) | h
      · rcases mem_requiredFormat h with h | h <;> exact absurd h (by decide)
      · rcases mem_requiredNameT h with h | h <;> exact absurd h (by decide)
      · rcases mem_requiredNameT h with h | h <;> exact absurd h (by decide)
      · rcases mem_requiredFormat h with h | h <;> exact absurd h (by decide)
      · rcases mem_requiredFormat h with h | h <;> exact absurd h (by decide)
      · exact absurd (List.mem_singleton.mp h) (by decide)
    · intro hmem2
      simp only [userErrorsT, hseg, List.mem_append] at hmem2
      rcases hmem2 with (((((h) | h) | h) | h) | h) | h
      · rcases mem_requiredFormat h with h | h <;> exact absurd h (by decide)
      · rcases mem_requiredNameT h with h | h <;> exact absurd h (by decide)
      · rcases mem_requiredNameT h with h | h <;> exact absurd h (by decide)
      · rcases mem_requiredFormat h with h | h <;> exact absurd h (by decide)
      · rcases mem_requiredFormat h with h | h <;> exact absurd h (by decide)
      · exact absurd (List.mem_singleton.mp h) (by decide)
    · intro hmem2
      simp only [userErrorsT, hseg, List.mem_append] at hmem2
      rcases hmem2 with (((((h) | h) | h) | h) | h) | h
      · rcases mem_requiredFormat h with h | h <;> exact absurd h (by decide)
      · rcases mem_requiredNameT h with h | h <;> exact absurd h (by decide)
      · rcases mem_requiredNameT h with h | h <;> exact absurd h (by decide)
      · rcases mem_requiredFormat h with h | h <;> exact absurd h (by decide)
      · rcases mem_requiredFormat h with h | h <;> exact absurd h (by decide)
      · exact absurd (List.mem_singleton.mp h) (by decide)
    · intro hmem2
      simp only [userErrorsT, hseg, List.mem_append] at hmem2
      rcases hmem2 with (((((h) | h) | h) | h) | h) | h
      · rcases mem_requiredFormat h with h | h <;> exact absurd h (by decide)
      · rcases mem_requiredNameT h with h | h <;> exact absurd h (by decide)
      · rcases mem_requiredNameT h with h | h <;> exact absurd h (by decide)
      · rcases mem_requiredFormat h with h | h <;> exact absurd h (by decide)
      · rcases mem_requiredFormat h with h | h <;> exact absurd h (by decide)
      · exact absurd (List.mem_singleton.mp h) (by decide)
    · intro hmem2
      simp only [userErrorsT, hseg, List.mem_append] at hmem2
      rcases hmem2 with (((((h) | h) | h) | h) | h) | h
      · rcases mem_requiredFormat h with h | h <;> exact absurd h (by decide)
      · rcases mem_requiredNameT h with h | h <;> exact absurd h (by decide)
      · rcases mem_requiredNameT h with h | h <;> exact absurd h (by decide)
      · rcases mem_requiredFormat h with h | h <;> exact absurd h (by decide)
      · rcases mem_requiredFormat h with h | h <;> exact absurd h (by decide)
      · exact absurd (List.mem_singleton.mp h) (by decide)

theorem c3_user_trim :
    ∀ f pm fms, (f, pm, fms) ∈ userTrimRequired →
      ∀ fs r, (truthy (lookupField fs f) = false ∨
          ∃ s, lookupField fs f = .string s ∧ trimChars s.data = []) →
        validateUser (.object fs) = some r →
        r.isValid = false ∧ pm ∈ r.errors ∧ ∀ m ∈ fms, m ∉ r.errors := by
  intro f pm fms ht fs r hdis hok
  have hr := validateUser_some_eq hok
  subst hr
  simp only [userTrimRequired, List.mem_cons, List.not_mem_nil, or_false, Prod.mk.injEq] at ht
  rcases ht with ⟨rfl, rfl, rfl⟩ | ⟨rfl, rfl, rfl⟩
  · have hseg : requiredNameT "First name is required" "First name must be 100 characters or less" (lookupField fs "firstName") = ["First name is required"] := by
      rcases hdis with hfalsy | ⟨s, hv, hs⟩
      · exact requiredNameT_falsy _ _ _ hfalsy
      · rw [hv]; exact requiredNameT_trimEmpty _ _ _ hs
    have hmem : ("First name is required") ∈ userErrorsT fs := by simp [userErrorsT, hseg]
    refine ⟨length_beq_zero_of_mem hmem, hmem, ?_⟩
    intro m hm
    simp only [List.mem_cons, List.not_mem_nil, or_false] at hm
    subst hm
    intro hmem2
    simp only [userErrorsT, hseg, List.mem_append] at hmem2
    rcases hmem2 with (((((h) | h) | h) | h) | h) | h
    · rcases mem_requiredFormat h with h | h <;> exact absurd h (by decide)
    · exact absurd (List.mem_singleton.mp h) (by decide)
    · rcases mem_requiredNameT h with h | h <;> exact absurd h (by decide)
    · rcases mem_requiredFormat h with h | h <;> exact absurd h (by decide)
    · rcases mem_requiredFormat h with h | h <;> exact absurd h (by decide)
    · exact absurd (mem_addressErrorsT h) (by decide)
  · have hseg : requiredNameT "Last name is required" "Last name must be 100 characters or less" (lookupField fs "lastName") = ["Last name is required"] := by
      rcases hdis with hfalsy | ⟨s, hv, hs⟩
      · exact requiredNameT_falsy _ _ _ hfalsy
      · rw [hv]; exact requiredNameT_trimEmpty _ _ _ hs
    have hmem : ("Last name is required") ∈ userErrorsT fs := by simp [userErrorsT, hseg]
    refine ⟨length_beq_zero_of_mem hmem, hmem, ?_⟩
    intro m hm
    simp only [List.mem_cons, List.not_mem_nil, or_false] at hm
    subst hm
    intro hmem2
    simp only [userErrorsT, hseg, List.mem_append] at hmem2
    rcases hmem2 with (((((h) | h) | h) | h) | h) | h
    · rcases mem_requiredFormat h with h | h <;> exact absurd h (by decide)
    · rcases mem_requiredNameT h with h | h <;> exact absurd h (by decide)
    · exact absurd (List.mem_singleton.mp h) (by decide)
    · rcases mem_requiredFormat h with h | h <;> exact absurd h (by decide)
    · rcases mem_requiredFormat h with h | h <;> exact absurd h (by decide)
    · exact absurd (mem_addressErrorsT h) (by decide)

theorem c3_addr_plain :
    ∀ f pm fms, (f, pm, fms) ∈ addressPlainRequired →
      ∀ fs afs r, lookupField fs "address" = .object afs →
        truthy (lookupField afs f) = false →
        validateUser (.object fs) = some r →
        r.isValid = false ∧ pm ∈ r.errors ∧ ∀ m ∈ fms, m ∉ r.errors := by
  intro f pm fms ht fs afs r haddr hfalsy hok
  have hr := validateUser_some_eq hok
  subst hr
  simp only [addressPlainRequired, List.mem_cons, List.not_mem_nil, or_false, Prod.mk.injEq] at ht
  rcases ht with ⟨rfl, rfl, rfl⟩ | ⟨rfl, rfl, rfl⟩
  · have hseg := stateFieldErrorsT_falsy (lookupField afs "state") hfalsy
    have hmem : ("State is required") ∈ userErrorsT fs := by simp [userErrorsT, haddr, addressErrorsT_object, hseg]
    refine ⟨length_beq_zero_of_mem hmem, hmem, ?_⟩
    intro m hm
    simp only [List.mem_cons, List.not_mem_nil, or_false] at hm
    subst hm
    intro hmem2
    simp only [userErrorsT, haddr, addressErrorsT_object, hseg, List.mem_append] at hmem2
    rcases hmem2 with (((((h) | h) | h) | h) | h) | ((((h) | h) | h) | h)
    · rcases mem_requiredFormat h with h | h <;> exact absurd h (by decide)
    · rcases mem_requiredNameT h with h | h <;> exact absurd h (by decide)
    · rcases mem_requiredNameT h with h | h <;> exact absurd h (by decide)
    · rcases mem_requiredFormat h with h | h <;> exact absurd h (by decide)
    · rcases mem_requiredFormat h with h | h <;> exact absurd h (by decide)
    · exact absurd (mem_requiredTrimmedT h) (by decide)
    · exact absurd (mem_requiredTrimmedT h) (by decide)
    · exact absurd (List.mem_singleton.mp h) (by decide)
    · rcases mem_requiredFormat h with h | h <;> exact absurd h (by decide)
  · have hseg := requiredFormat_falsy "ZIP code is required" "Invalid ZIP code format" isValidZipCode (lookupField afs "zipCode") hfalsy
    have hmem : ("ZIP code is required") ∈ userErrorsT fs := by simp [userErrorsT, haddr, addressErrorsT_object, hseg]
    refine ⟨length_beq_zero_of_mem hmem, hmem, ?_⟩
    intro m hm
    simp only [List.mem_cons, List.not_mem_nil, or_false] at hm
    subst hm
    intro hmem2
    simp only [userErrorsT, haddr, addressErrorsT_object, hseg, List.mem_append] at hmem2
    rcases hmem2 with (((((h) | h) | h) | h) | h) | ((((h) | h) | h) | h)
    · rcases mem_requiredFormat h with h | h <;> exact absurd h (by decide)
    · rcases mem_requiredNameT h with h | h <;> exact absurd h (by decide)
    · rcases mem_requiredNameT h with h | h <;> exact absurd h (by decide)
    · rcases mem_requiredFormat h with h | h <;> exact absurd h (by decide)
    · rcases mem_requiredFormat h with h | h <;> exact absurd h (by decide)
    · exact absurd (mem_requiredTrimmedT h) (by decide)
    · exact absurd (mem_requiredTrimmedT h) (by decide)
    · rcases mem_stateFieldErrorsT h with h | h <;> exact absurd h (by decide)
    · exact absurd (List.mem_singleton.mp h) (by decide)

theorem c3_addr_trim :
    ∀ f pm fms, (f, pm, fms) ∈ addressTrimRequired →
      ∀ fs afs r, lookupField fs "address" = .object afs →
        (truthy (lookupField afs f) = false ∨
          ∃ s, lookupField afs f = .string s ∧ trimChars s.data = []) →
        validateUser (.object fs) = some r →
        r.isValid = false ∧ pm ∈ r.errors ∧ ∀ m ∈ fms, m ∉ r.errors := by
  intro f pm fms ht fs afs r haddr hdis hok
  have hr := validateUser_some_eq hok
  subst hr
  simp only [addressTrimRequired, List.mem_cons, List.not_mem_nil, or_false, Prod.mk.injEq] at ht
  rcases ht with ⟨rfl, rfl, rfl⟩ | ⟨rfl, rfl, rfl⟩
  · have hseg : requiredTrimmedT "Street address is required" (lookupField afs "street") = ["Street address is required"] := by
      rcases hdis with hfalsy | ⟨s, hv, hs⟩
      · exact requiredTrimmedT_falsy _ _ hfalsy
      · rw [hv]; exact requiredTrimmedT_trimEmpty _ _ hs
    have hmem : ("Street address is required") ∈ userErrorsT fs := by simp [userErrorsT, haddr, addressErrorsT_object, hseg]
    refine ⟨length_beq_zero_of_mem hmem, hmem, ?_⟩
    intro m hm
    exact absurd hm (List.not_mem_nil m)
  · have hseg : requiredTrimmedT "City is required" (lookupField afs "city") = ["City is required"] := by
      rcases hdis with hfalsy | ⟨s, hv, hs⟩
      · exact requiredTrimmedT_falsy _ _ hfalsy
      · rw [hv]; exact requiredTrimmedT_trimEmpty _ _ hs
    have hmem : ("City is required") ∈ userErrorsT fs := by simp [userErrorsT, haddr, addressErrorsT_object, hseg]
    refine ⟨length_beq_zero_of_mem hmem, hmem, ?_⟩
    intro m hm
    exact absurd hm (List.not_mem_nil m)

theorem c3_ins_plain :
    ∀ f pm fms, (f, pm, fms) ∈ insurancePlainRequired →
      ∀ fs r, truthy (lookupField fs f) = false →
        validateInsurance (.object fs) = some r →
        r.isValid = false ∧ pm ∈ r.errors ∧ ∀ m ∈ fms, m ∉ r.errors := by
  intro f pm fms ht fs r hfalsy hok
  have hr := validateInsurance_some_eq hok
  subst hr
  simp only [insurancePlainRequired, List.mem_cons, List.not_mem_nil, or_false, Prod.mk.injEq] at ht
  rcases ht with ⟨rfl, rfl, rfl⟩ | ⟨rfl, rfl, rfl⟩ | ⟨rfl, rfl, rfl⟩ | ⟨rfl, rfl, rfl⟩
  · have hseg : (if !truthy (lookupField fs "userId") then ["User ID is required"] else []) = ["User ID is required"] := by simp [hfalsy]
    have hmem : ("User ID is required") ∈ insuranceErrorsT fs := by simp [insuranceErrorsT, hfalsy, hseg]
    refine ⟨length_beq_zero_of_mem hmem, hmem, ?_⟩
    intro m hm
    exact absurd hm (List.not_mem_nil m)
  · have hseg := requiredFormat_falsy "Plan type is required" planTypeBadMsg isValidPlanType (lookupField fs "planType") hfalsy
    have hmem : ("Plan type is required") ∈ insuranceErrorsT fs := by simp [insuranceErrorsT, hseg]
    refine ⟨length_beq_zero_of_mem hmem, hmem, ?_⟩
    intro m hm
    simp only [List.mem_cons, List.not_mem_nil, or_false] at hm
    subst hm
    intro hmem2
    simp only [insuranceErrorsT, hseg, List.mem_append] at hmem2
    rcases hmem2 with ((((((((((((((h) | h) | h) | h) | h) | h) | h) | h) | h) | h) | h) | h) | h) | h) | h
    · exact absurd (List.mem_singleton.mp (mem_ite_nil h)) (by decide)
    · exact absurd (mem_requiredTrimmedT h) (by decide)
    · exact absurd (mem_requiredTrimmedT h) (by decide)
    · exact absurd (List.mem_singleton.mp h) (by decide)
    · exact absurd (mem_requiredTrimmedT h) (by decide)
    · rcases mem_requiredFormat h with h | h <;> exact absurd h (by decide)
    · exact absurd (mem_nonNegNumberCheck h) (by decide)
    · exact absurd (mem_nonNegNumberCheck h) (by decide)
    · exact absurd (mem_nonNegNumberCheck h) (by decide)
    · exact absurd (mem_nonNegNumberCheck h) (by decide)
    · rcases mem_requiredFormat h with h | h <;> exact absurd h (by decide)
    · exact absurd (List.mem_singleton.mp (mem_ite_nil h)) (by decide)
    · exact absurd (List.mem_singleton.mp (mem_ite_nil (mem_ite_nil h))) (by decide)
    · exact absurd (List.mem_singleton.mp (mem_ite_nil h)) (by decide)
    · exact absurd (List.mem_singleton.mp (mem_ite_nil h)) (by decide)
  · have hseg := requiredFormat_falsy "RxBIN is required" "RxBIN must be exactly 6 digits" isValidRxBIN (lookupField fs "rxBIN") hfalsy
    have hmem : ("RxBIN is required") ∈ insuranceErrorsT fs := by simp [insuranceErrorsT, hseg]
    refine ⟨length_beq_zero_of_mem hmem, hmem, ?_⟩
    intro m hm
    simp only [List.mem_cons, List.not_mem_nil, or_false] at hm
    subst hm
    intro hmem2
    simp only [insuranceErrorsT, hseg, List.mem_append] at hmem2
    rcases hmem2 with ((((((((((((((h) | h) | h) | h) | h) | h) | h) | h) | h) | h) | h) | h) | h) | h) | h
    · exact absurd (List.mem_singleton.mp (mem_ite_nil h)) (by decide)
    · exact absurd (mem_requiredTrimmedT h) (by decide)
    · exact absurd (mem_requiredTrimmedT h) (by decide)
    · rcases mem_requiredFormat h with h | h <;> exact absurd h (by decide)
    · exact absurd (mem_requiredTrimmedT h) (by decide)
    · exact absurd (List.mem_singleton.mp h) (by decide)
    · exact absurd (mem_nonNegNumberCheck h) (by decide)
    · exact absurd (mem_nonNegNumberCheck h) (by decide)
    · exact absurd (mem_nonNegNumberCheck h) (by decide)
    · exact absurd (mem_nonNegNumberCheck h) (by decide)
    · rcases mem_requiredFormat h with h | h <;> exact absurd h (by decide)
    · exact absurd (List.mem_singleton.mp (mem_ite_nil h)) (by decide)
    · exact absurd (List.mem_singleton.mp (mem_ite_nil (mem_ite_nil h))) (by decide)
    · exact absurd (List.mem_singleton.mp (mem_ite_nil h)) (by decide)
    · exact absurd (List.mem_singleton.mp (mem_ite_nil h)) (by decide)
  · have hseg := requiredFormat_falsy "Effective date is required" "Effective date must be in YYYY-MM-DD format" isValidDate (lookupField fs "effectiveDate") hfalsy
    have hmem : ("Effective date is required") ∈ insuranceErrorsT fs := by simp [insuranceErrorsT, hseg]
    refine ⟨length_beq_zero_of_mem hmem, hmem, ?_⟩
    intro m hm
    simp only [List.mem_cons, List.not_mem_nil, or_false] at hm
    subst hm
    intro hmem2
    simp only [insuranceErrorsT, hseg, List.mem_append] at hmem2
    rcases hmem2 with ((((((((((((((h) | h) | h) | h) | h) | h) | h) | h) | h) | h) | h) | h) | h) | h) | h
    · exact absurd (List.mem_singleton.mp (mem_ite_nil h)) (by decide)
    · exact absurd (mem_requiredTrimmedT h) (by decide)
    · exact absurd (mem_requiredTrimmedT h) (by decide)
    · rcases mem_requiredFormat h with h | h <;> exact absurd h (by decide)
    · exact absurd (mem_requiredTrimmedT h) (by decide)
    · rcases mem_requiredFormat h with h | h <;> exact absurd h (by decide)
    · exact absurd (mem_nonNegNumberCheck h) (by decide)
    · exact absurd (mem_nonNegNumberCheck h) (by decide)
    · exact absurd (mem_nonNegNumberCheck h) (by decide)
    · exact absurd (mem_nonNegNumberCheck h) (by decide)
    · exact absurd (List.mem_singleton.mp h) (by decide)
    · exact absurd (List.mem_singleton.mp (mem_ite_nil h)) (by decide)
    · exact absurd (List.mem_singleton.mp (mem_ite_nil (mem_ite_nil h))) (by decide)
    · exact absurd (List.mem_singleton.mp (mem_ite_nil h)) (by decide)
    · exact absurd (List.mem_singleton.mp (mem_ite_nil h)) (by decide)

theorem c3_ins_trim :
    ∀ f pm fms, (f, pm, fms) ∈ insuranceTrimRequired →
      ∀ fs r, (truthy (lookupField fs f) = false ∨
          ∃ s, lookupField fs f = .string s ∧ trimChars s.data = []) →
        validateInsurance (.object fs) = some r →
        r.isValid = false ∧ pm ∈ r.errors ∧ ∀ m ∈ fms, m ∉ r.errors := by
  intro f pm fms ht fs r hdis hok
  have hr := validateInsurance_some_eq hok
  subst hr
  simp only [insuranceTrimRequired, List.mem_cons, List.not_mem_nil, or_false, Prod.mk.injEq] at ht
  rcases ht with ⟨rfl, rfl, rfl⟩ | ⟨rfl, rfl, rfl⟩ | ⟨rfl, rfl, rfl⟩
  · have hseg : requiredTrimmedT "Insurance company name is required" (lookupField fs "insuranceCompany") = ["Insurance company name is required"] := by
      rcases hdis with hfalsy | ⟨s, hv, hs⟩
      · exact requiredTrimmedT_falsy _ _ hfalsy
      · rw [hv]; exact requiredTrimmedT_trimEmpty _ _ hs
    have hmem : ("Insurance company name is required") ∈ insuranceErrorsT fs := by simp [insuranceErrorsT, hseg]
    refine ⟨length_beq_zero_of_mem hmem, hmem, ?_⟩
    intro m hm
    exact absurd hm (List.not_mem_nil m)
  · have hseg : requiredTrimmedT "Policy number is required" (lookupField fs "policyNumber") = ["Policy number is required"] := by
      rcases hdis with hfalsy | ⟨s, hv, hs⟩
      · exact requiredTrimmedT_falsy _ _ hfalsy
      · rw [hv]; exact requiredTrimmedT_trimEmpty _ _ hs
    have hmem : ("Policy number is required") ∈ insuranceErrorsT fs := by simp [insuranceErrorsT, hseg]
    refine ⟨length_beq_zero_of_mem hmem, hmem, ?_⟩
    intro m hm
    exact absurd hm (List.not_mem_nil m)
  · have hseg : requiredTrimmedT "Plan name is required" (lookupField fs "planName") = ["Plan name is required"] := by
      rcases hdis with hfalsy | ⟨s, hv, hs⟩
      · exact requiredTrimmedT_falsy _ _ hfalsy
      · rw [hv]; exact requiredTrimmedT_trimEmpty _ _ hs
    have hmem : ("Plan name is required") ∈ insuranceErrorsT fs := by simp [insuranceErrorsT, hseg]
    refine ⟨length_beq_zero_of_mem hmem, hmem, ?_⟩
    intro m hm
    exact absurd hm (List.not_mem_nil m)

theorem c3_rx_plain :
    ∀ f pm fms, (f, pm, fms) ∈ rxPlainRequired →
      ∀ fs r, truthy (lookupField fs f) = false →
        validatePrescription (.object fs) = some r →
        r.isValid = false ∧ pm ∈ r.errors ∧ ∀ m ∈ fms, m ∉ r.errors := by
  intro f pm fms ht fs r hfalsy hok
  have hr := validatePrescription_some_eq hok
  subst hr
  simp only [rxPlainRequired, List.mem_cons, List.not_mem_nil, or_false, Prod.mk.injEq] at ht
  rcases ht with ⟨rfl, rfl, rfl⟩ | ⟨rfl, rfl, rfl⟩ | ⟨rfl, rfl, rfl⟩ | ⟨rfl, rfl, rfl⟩
  · have hseg : (if !truthy (lookupField fs "userId") then ["User ID is required"] else []) = ["User ID is required"] := by simp [hfalsy]
    have hmem : ("User ID is required") ∈ rxErrorsT fs := by simp [rxErrorsT, hfalsy, hseg]
    refine ⟨length_beq_zero_of_mem hmem, hmem, ?_⟩
    intro m hm
    exact absurd hm (List.not_mem_nil m)
  · have hseg := requiredFormat_falsy "Medication form is required" medFormBadMsg isValidMedicationForm (lookupField fs "medicationForm") hfalsy
    have hmem : ("Medication form is required") ∈ rxErrorsT fs := by simp [rxErrorsT, hseg]
    refine ⟨length_beq_zero_of_mem hmem, hmem, ?_⟩
    intro m hm
    simp only [List.mem_cons, List.not_mem_nil, or_false] at hm
    subst hm
    intro hmem2
    simp only [rxErrorsT, hseg, List.mem_append] at hmem2
    rcases hmem2 with ((((((((((((((h) | h) | h) | h) | h) | h) | h) | h) | h) | h) | h) | h) | h) | h) | h
    · exact absurd (List.mem_singleton.mp (mem_ite_nil h)) (by decide)
    · exact absurd (mem_requiredTrimmedT h) (by decide)
    · exact absurd (List.mem_singleton.mp h) (by decide)
    · exact absurd (mem_requiredTrimmedT h) (by decide)
    · exact absurd (List.mem_singleton.mp (mem_ite_nil h)) (by decide)
    · exact absurd (mem_requiredTrimmedT h) (by decide)
    · rcases mem_positiveNumberCheck h with h | h <;> exact absurd h (by decide)
    · rcases mem_positiveNumberCheck h with h | h <;> exact absurd h (by decide)
    · rcases mem_nonNegRequiredCheck h with h | h <;> exact absurd h (by decide)
    · rcases mem_refillsRemainingErrors h with h | h <;> exact absurd h (by decide)
    · exact absurd (mem_requiredTrimmedT h) (by decide)
    · rcases mem_requiredFormat h with h | h <;> exact absurd h (by decide)
    · rcases mem_requiredFormat h with h | h <;> exact absurd h (by decide)
    · exact absurd (List.mem_singleton.mp (mem_ite_nil h)) (by decide)
    · exact absurd (List.mem_singleton.mp (mem_ite_nil h)) (by decide)
  · have hseg := requiredFormat_falsy "Prescriber NPI is required" "Prescriber NPI must be exactly 10 digits" isValidNPI (lookupField fs "prescriberNPI") hfalsy
    have hmem : ("Prescriber NPI is required") ∈ rxErrorsT fs := by simp [rxErrorsT, hseg]
    refine ⟨length_beq_zero_of_mem hmem, hmem, ?_⟩
    intro m hm
    simp only [List.mem_cons, List.not_mem_nil, or_false] at hm
    subst hm
    intro hmem2
    simp only [rxErrorsT, hseg, List.mem_append] at hmem2
    rcases hmem2 with ((((((((((((((h) | h) | h) | h) | h) | h) | h) | h) | h) | h) | h) | h) | h) | h) | h
    · exact absurd (List.mem_singleton.mp (mem_ite_nil h)) (by decide)
    · exact absurd (mem_requiredTrimmedT h) (by decide)
    · rcases mem_requiredFormat h with h | h <;> exact absurd h (by decide)
    · exact absurd (mem_requiredTrimmedT h) (by decide)
    · exact absurd (List.mem_singleton.mp (mem_ite_nil h)) (by decide)
    · exact absurd (mem_requiredTrimmedT h) (by decide)
    · rcases mem_positiveNumberCheck h with h | h <;> exact absurd h (by decide)
    · rcases mem_positiveNumberCheck h with h | h <;> exact absurd h (by decide)
    · rcases mem_nonNegRequiredCheck h with h | h <;> exact absurd h (by decide)
    · rcases mem_refillsRemainingErrors h with h | h <;> exact absurd h (by decide)
    · exact absurd (mem_requiredTrimmedT h) (by decide)
    · exact absurd (List.mem_singleton.mp h) (by decide)
    · rcases mem_requiredFormat h with h | h <;> exact absurd h (by decide)
    · exact absurd (List.mem_singleton.mp (mem_ite_nil h)) (by decide)
    · exact absurd (List.mem_singleton.mp (mem_ite_nil h)) (by decide)
  · have hseg := requiredFormat_falsy "Prescribed date is required" "Prescribed date must be in YYYY-MM-DD format" isValidDate (lookupField fs "prescribedDate") hfalsy
    have hmem : ("Prescribed date is required") ∈ rxErrorsT fs := by simp [rxErrorsT, hseg]
    refine ⟨length_beq_zero_of_mem hmem, hmem, ?_⟩
    intro m hm
    simp only [List.mem_cons, List.not_mem_nil, or_false] at hm
    subst hm
    intro hmem2
    simp only [rxErrorsT, hseg, List.mem_append] at hmem2
    rcases hmem2 with ((((((((((((((h) | h) | h) | h) | h) | h) | h) | h) | h) | h) | h) | h) | h) | h) | h
    · exact absurd (List.mem_singleton.mp (mem_ite_nil h)) (by decide)
    · exact absurd (mem_requiredTrimmedT h) (by decide)
    · rcases mem_requiredFormat h with h | h <;> exact absurd h (by decide)
    · exact absurd (mem_requiredTrimmedT h) (by decide)
    · exact absurd (List.mem_singleton.mp (mem_ite_nil h)) (by decide)
    · exact absurd (mem_requiredTrimmedT h) (by decide)
    · rcases mem_positiveNumberCheck h with h | h <;> exact absurd h (by decide)
    · rcases mem_positiveNumberCheck h with h | h <;> exact absurd h (by decide)
    · rcases mem_nonNegRequiredCheck h with h | h <;> exact absurd h (by decide)
    · rcases mem_refillsRemainingErrors h with h | h <;> exact absurd h (by decide)
    · exact absurd (mem_requiredTrimmedT h) (by decide)
    · rcases mem_requiredFormat h with h | h <;> exact absurd h (by decide)
    · exact absurd (List.mem_singleton.mp h) (by decide)
    · exact absurd (List.mem_singleton.mp (mem_ite_nil h)) (by decide)
    · exact absurd (List.mem_singleton.mp (mem_ite_nil h)) (by decide)

theorem c3_rx_trim :
    ∀ f pm fms, (f, pm, fms) ∈ rxTrimRequired →
      ∀ fs r, (truthy (lookupField fs f) = false ∨
          ∃ s, lookupField fs f = .string s ∧ trimChars s.data = []) →
        validatePrescription (.object fs) = some r →
        r.isValid = false ∧ pm ∈ r.errors ∧ ∀ m ∈ fms, m ∉ r.errors := by
  intro f pm fms ht fs r hdis hok
  have hr := validatePrescription_some_eq hok
  subst hr
  simp only [rxTrimRequired, List.mem_cons, List.not_mem_nil, or_false, Prod.mk.injEq] at ht
  rcases ht with ⟨rfl, rfl, rfl⟩ | ⟨rfl, rfl, rfl⟩ | ⟨rfl, rfl, rfl⟩ | ⟨rfl, rfl, rfl⟩
  · have hseg : requiredTrimmedT "Medication name is required" (lookupField fs "medicationName") = ["Medication name is required"] := by
      rcases hdis with hfalsy | ⟨s, hv, hs⟩
      · exact requiredTrimmedT_falsy _ _ hfalsy
      · rw [hv]; exact requiredTrimmedT_trimEmpty _ _ hs
    have hmem : ("Medication name is required") ∈ rxErrorsT fs := by simp [rxErrorsT, hseg]
    refine ⟨length_beq_zero_of_mem hmem, hmem, ?_⟩
    intro m hm
    exact absurd hm (List.not_mem_nil m)
  · have hseg : requiredTrimmedT "Medication strength is required (e.g., \"500mg\", \"10mg/ml\")" (lookupField fs "strength") = ["Medication strength is required (e.g., \"500mg\", \"10mg/ml\")"] := by
      rcases hdis with hfalsy | ⟨s, hv, hs⟩
      · exact requiredTrimmedT_falsy _ _ hfalsy
      · rw [hv]; exact requiredTrimmedT_trimEmpty _ _ hs
    have hmem : ("Medication strength is required (e.g., \"500mg\", \"10mg/ml\")") ∈ rxErrorsT fs := by simp [rxErrorsT, hseg]
    refine ⟨length_beq_zero_of_mem hmem, hmem, ?_⟩
    intro m hm
    exact absurd hm (List.not_mem_nil m)
  · have hseg : requiredTrimmedT "Dosage instructions are required" (lookupField fs "dosageInstructions") = ["Dosage instructions are required"] := by
      rcases hdis with hfalsy | ⟨s, hv, hs⟩
      · exact requiredTrimmedT_falsy _ _ hfalsy
      · rw [hv]; exact requiredTrimmedT_trimEmpty _ _ hs
    have hmem : ("Dosage instructions are required") ∈ rxErrorsT fs := by simp [rxErrorsT, hseg]
    refine ⟨length_beq_zero_of_mem hmem, hmem, ?_⟩
    intro m hm
    exact absurd hm (List.not_mem_nil m)
  · have hseg : requiredTrimmedT "Prescriber name is required" (lookupField fs "prescriberName") = ["Prescriber name is required"] := by
      rcases hdis with hfalsy | ⟨s, hv, hs⟩
      · exact requiredTrimmedT_falsy _ _ hfalsy
      · rw [hv]; exact requiredTrimmedT_trimEmpty _ _ hs
    have hmem : ("Prescriber name is required") ∈ rxErrorsT fs := by simp [rxErrorsT, hseg]
    refine ⟨length_beq_zero_of_mem hmem, hmem, ?_⟩
    intro m hm
    exact absurd hm (List.not_mem_nil m)

theorem c3_rx_number :
    ∀ f pm fms, (f, pm, fms) ∈ rxNumberRequired →
      ∀ fs r, (lookupField fs f = .undefined ∨ lookupField fs f = .null) →
        validatePrescription (.object fs) = some r →
        r.isValid = false ∧ pm ∈ r.errors ∧ ∀ m ∈ fms, m ∉ r.errors := by
  intro f pm fms ht fs r hdis hok
  have hr := validatePrescription_some_eq hok
  subst hr
  simp only [rxNumberRequired, List.mem_cons, List.not_mem_nil, or_false, Prod.mk.injEq] at ht
  rcases ht with ⟨rfl, rfl, rfl⟩ | ⟨rfl, rfl, rfl⟩ | ⟨rfl, rfl, rfl⟩
  · have hseg : positiveNumberCheck "Quantity is required" "Quantity must be a positive number" (lookupField fs "quantity") = ["Quantity is required"] := by
      rcases hdis with hv | hv <;> simp [positiveNumberCheck, hv]
    have hmem : ("Quantity is required") ∈ rxErrorsT fs := by simp [rxErrorsT, hseg]
    refine ⟨length_beq_zero_of_mem hmem, hmem, ?_⟩
    intro m hm
    simp only [List.mem_cons, List.not_mem_nil, or_false] at hm
    subst hm
    intro hmem2
    simp only [rxErrorsT, hseg, List.mem_append] at hmem2
    rcases hmem2 with ((((((((((((((h) | h) | h) | h) | h) | h) | h) | h) | h) | h) | h) | h) | h) | h) | h
    · exact absurd (List.mem_singleton.mp (mem_ite_nil h)) (by decide)
    · exact absurd (mem_requiredTrimmedT h) (by decide)
    · rcases mem_requiredFormat h with h | h <;> exact absurd h (by decide)
    · exact absurd (mem_requiredTrimmedT h) (by decide)
    · exact absurd (List.mem_singleton.mp (mem_ite_nil h)) (by decide)
    · exact absurd (mem_requiredTrimmedT h) (by decide)
    · exact absurd (List.mem_singleton.mp h) (by decide)
    · rcases mem_positiveNumberCheck h with h | h <;> exact absurd h (by decide)
    · rcases mem_nonNegRequiredCheck h with h | h <;> exact absurd h (by decide)
    · rcases mem_refillsRemainingErrors h with h | h <;> exact absurd h (by decide)
    · exact absurd (mem_requiredTrimmedT h) (by decide)
    · rcases mem_requiredFormat h with h | h <;> exact absurd h (by decide)
    · rcases mem_requiredFormat h with h | h <;> exact absurd h (by decide)
    · exact absurd (List.mem_singleton.mp (mem_ite_nil h)) (by decide)
    · exact absurd (List.mem_singleton.mp (mem_ite_nil h)) (by decide)
  · have hseg : positiveNumberCheck "Days supply is required" "Days supply must be a positive number" (lookupField fs "daysSupply") = ["Days supply is required"] := by
      rcases hdis with hv | hv <;> simp [positiveNumberCheck, hv]
    have hmem : ("Days supply is required") ∈ rxErrorsT fs := by simp [rxErrorsT, hseg]
    refine ⟨length_beq_zero_of_mem hmem, hmem, ?_⟩
    intro m hm
    simp only [List.mem_cons, List.not_mem_nil, or_false] at hm
    subst hm
    intro hmem2
    simp only [rxErrorsT, hseg, List.mem_append] at hmem2
    rcases hmem2 with ((((((((((((((h) | h) | h) | h) | h) | h) | h) | h) | h) | h) | h) | h) | h) | h) | h
    · exact absurd (List.mem_singleton.mp (mem_ite_nil h)) (by decide)
    · exact absurd (mem_requiredTrimmedT h) (by decide)
    · rcases mem_requiredFormat h with h | h <;> exact absurd h (by decide)
    · exact absurd (mem_requiredTrimmedT h) (by decide)
    · exact absurd (List.mem_singleton.mp (mem_ite_nil h)) (by decide)
    · exact absurd (mem_requiredTrimmedT h) (by decide)
    · rcases mem_positiveNumberCheck h with h | h <;> exact absurd h (by decide)
    · exact absurd (List.mem_singleton.mp h) (by decide)
    · rcases mem_nonNegRequiredCheck h with h | h <;> exact absurd h (by decide)
    · rcases mem_refillsRemainingErrors h with h | h <;> exact absurd h (by decide)
    · exact absurd (mem_requiredTrimmedT h) (by decide)
    · rcases mem_requiredFormat h with h | h <;> exact absurd h (by decide)
    · rcases mem_requiredFormat h with h | h <;> exact absurd h (by decide)
    · exact absurd (List.mem_singleton.mp (mem_ite_nil h)) (by decide)
    · exact absurd (List.mem_singleton.mp (mem_ite_nil h)) (by decide)
  · have hseg : nonNegRequiredCheck "Refills allowed is required" "Refills allowed must be a non-negative number" (lookupField fs "refillsAllowed") = ["Refills allowed is required"] := by
      rcases hdis with hv | hv <;> simp [nonNegRequiredCheck, hv]
    have hmem : ("Refills allowed is required") ∈ rxErrorsT fs := by simp [rxErrorsT, hseg]
    refine ⟨length_beq_zero_of_mem hmem, hmem, ?_⟩
    intro m hm
    simp only [List.mem_cons, List.not_mem_nil, or_false] at hm
    subst hm
    intro hmem2
    simp only [rxErrorsT, hseg, List.mem_append] at hmem2
    rcases hmem2 with ((((((((((((((h) | h) | h) | h) | h) | h) | h) | h) | h) | h) | h) | h) | h) | h) | h
    · exact absurd (List.mem_singleton.mp (mem_ite_nil h)) (by decide)
    · exact absurd (mem_requiredTrimmedT h) (by decide)
    · rcases mem_requiredFormat h with h | h <;> exact absurd h (by decide)
    · exact absurd (mem_requiredTrimmedT h) (by decide)
    · exact absurd (List.mem_singleton.mp (mem_ite_nil h)) (by decide)
    · exact absurd (mem_requiredTrimmedT h) (by decide)
    · rcases mem_positiveNumberCheck h with h | h <;> exact absurd h (by decide)
    · rcases mem_positiveNumberCheck h with h | h <;> exact absurd h (by decide)
    · exact absurd (List.mem_singleton.mp h) (by decide)
    · rcases mem_refillsRemainingErrors h with h | h <;> exact absurd h (by decide)
    · exact absurd (mem_requiredTrimmedT h) (by decide)
    · rcases mem_requiredFormat h with h | h <;> exact absurd h (by decide)
    · rcases mem_requiredFormat h with h | h <;> exact absurd h (by decide)
    · exact absurd (List.mem_singleton.mp (mem_ite_nil h)) (by decide)
    · exact absurd (List.mem_singleton.mp (mem_ite_nil h)) (by decide)

theorem c10_deductible :
    ∀ fs r, lookupField fs "deductible" = .undefined →
      validateInsurance (.object fs) = some r →
      ("Deductible met cannot exceed total deductible") ∉ r.errors := by
  intro fs r hu hok hmem2
  have hr := validateInsurance_some_eq hok
  subst hr
  have hseg : (if jsGT (lookupField fs "deductibleMet") (lookupField fs "deductible") then ["Deductible met cannot exceed total deductible"] else []) = [] := by
    simp [hu, jsGT_undef_right]
  simp only [insuranceErrorsT, hseg, List.mem_append] at hmem2
  rcases hmem2 with ((((((((((((((h) | h) | h) | h) | h) | h) | h) | h) | h) | h) | h) | h) | h) | h) | h
  · exact absurd (List.mem_singleton.mp (mem_ite_nil h)) (by decide)
  · exact absurd (mem_requiredTrimmedT h) (by decide)
  · exact absurd (mem_requiredTrimmedT h) (by decide)
  · rcases mem_requiredFormat h with h | h <;> exact absurd h (by decide)
  · exact absurd (mem_requiredTrimmedT h) (by decide)
  · rcases mem_requiredFormat h with h | h <;> exact absurd h (by decide)
  · exact absurd (mem_nonNegNumberCheck h) (by decide)
  · exact absurd (mem_nonNegNumberCheck h) (by decide)
  · exact absurd (mem_nonNegNumberCheck h) (by decide)
  · exact absurd (mem_nonNegNumberCheck h) (by decide)
  · rcases mem_requiredFormat h with h | h <;> exact absurd h (by decide)
  · exact absurd (List.mem_singleton.mp (mem_ite_nil h)) (by decide)
  · exact absurd (List.mem_singleton.mp (mem_ite_nil (mem_ite_nil h))) (by decide)
  · exact absurd h (List.not_mem_nil _)
  · exact absurd (List.mem_singleton.mp (mem_ite_nil h)) (by decide)

theorem c10_outOfPocket :
    ∀ fs r, lookupField fs "outOfPocketMax" = .undefined →
      validateInsurance (.object fs) = some r →
      ("Out of pocket met cannot exceed out of pocket max") ∉ r.errors := by
  intro fs r hu hok hmem2
  have hr := validateInsurance_some_eq hok
  subst hr
  have hseg : (if jsGT (lookupField fs "outOfPocketMet") (lookupField fs "outOfPocketMax") then ["Out of pocket met cannot exceed out of pocket max"] else []) = [] := by
    simp [hu, jsGT_undef_right]
  simp only [insuranceErrorsT, hseg, List.mem_append] at hmem2
  rcases hmem2 with ((((((((((((((h) | h) | h) | h) | h) | h) | h) | h) | h) | h) | h) | h) | h) | h) | h
  · exact absurd (List.mem_singleton.mp (mem_ite_nil h)) (by decide)
  · exact absurd (mem_requiredTrimmedT h) (by decide)
  · exact absurd (mem_requiredTrimmedT h) (by decide)
  · rcases mem_requiredFormat h with h | h <;> exact absurd h (by decide)
  · exact absurd (mem_requiredTrimmedT h) (by decide)
  · rcases mem_requiredFormat h with h | h <;> exact absurd h (by decide)
  · exact absurd (mem_nonNegNumberCheck h) (by decide)
  · exact absurd (mem_nonNegNumberCheck h) (by decide)
  · exact absurd (mem_nonNegNumberCheck h) (by decide)
  · exact absurd (mem_nonNegNumberCheck h) (by decide)
  · rcases mem_requiredFormat h with h | h <;> exact absurd h (by decide)
  · exact absurd (List.mem_singleton.mp (mem_ite_nil h)) (by decide)
  · exact absurd (List.mem_singleton.mp (mem_ite_nil (mem_ite_nil h))) (by decide)
  · exact absurd (List.mem_singleton.mp (mem_ite_nil h)) (by decide)
  · exact absurd h (List.not_mem_nil _)

theorem c10_refillsAllowed :
    ∀ fs r, lookupField fs "refillsAllowed" = .undefined →
      validatePrescription (.object fs) = some r →
      ("Refills remaining cannot exceed refills allowed") ∉ r.errors := by
  intro fs r hu hok hmem2
  have hr := validatePrescription_some_eq hok
  subst hr
  simp only [rxErrorsT, hu, List.mem_append] at hmem2
  rcases hmem2 with ((((((((((((((h) | h) | h) | h) | h) | h) | h) | h) | h) | h) | h) | h) | h) | h) | h
  · exact absurd (List.mem_singleton.mp (mem_ite_nil h)) (by decide)
  · exact absurd (mem_requiredTrimmedT h) (by decide)
  · rcases mem_requiredFormat h with h | h <;> exact absurd h (by decide)
  · exact absurd (mem_requiredTrimmedT h) (by decide)
  · exact absurd (List.mem_singleton.mp (mem_ite_nil h)) (by decide)
  · exact absurd (mem_requiredTrimmedT h) (by decide)
  · rcases mem_positiveNumberCheck h with h | h <;> exact absurd h (by decide)
  · rcases mem_positiveNumberCheck h with h | h <;> exact absurd h (by decide)
  · rcases mem_nonNegRequiredCheck h with h | h <;> exact absurd h (by decide)
  · exact absurd (mem_refillsRemainingErrors_allowedUndef h) (by decide)
  · exact absurd (mem_requiredTrimmedT h) (by decide)
  · rcases mem_requiredFormat h with h | h <;> exact absurd h (by decide)
  · rcases mem_requiredFormat h with h | h <;> exact absurd h (by decide)
  · exact absurd (List.mem_singleton.mp (mem_ite_nil h)) (by decide)
  · exact absurd (List.mem_singleton.mp (mem_ite_nil h)) (by decide)



/-! ## Further supporting lemmas -/

theorem jsIncludes_string_eq (l : List String) (s : String) :
    jsIncludes l (.string s) = l.contains s := by
  rw [List.contains_eq_any_beq]
  rfl

theorem dateLt_some (x y : Int) : dateLt (some x) (some y) = decide (x < y) := rfl

/-! ## The claims -/

/-- C5: `validateUser({})` returns `isValid = false` with exactly the six
presence errors, in declaration order: email, first name, last name, date of
birth, phone number, address. -/
theorem claim_C5_empty_user :
    validateUser (.object []) =
      some ⟨false, ["Email is required", "First name is required",
                    "Last name is required", "Date of birth is required",
                    "Phone number is required", "Address is required"]⟩ := rfl

/-- C6: `isValidDate` accepts a string exactly when it matches the
`YYYY-MM-DD` digit grouping (`ymdParse` succeeds) and the digit groups
denote a real calendar date (month 1–12, day within the month, Gregorian
leap years); in particular `"2023-02-31"` matches the digit pattern but is
rejected, the leap day `"2024-02-29"` is accepted and `"2023-02-29"` is
not. -/
theorem claim_C6_real_dates :
    (∀ s y m d, ymdParse s = some (y, m, d) →
       (isValidDate (.string s) = true ↔
         1 ≤ m ∧ m ≤ 12 ∧ 1 ≤ d ∧ d ≤ daysInMonth y m)) ∧
    (∀ s, ymdParse s = none → isValidDate (.string s) = false) ∧
    isValidDate (.string "2023-02-31") = false ∧
    isValidDate (.string "2024-02-29") = true ∧
    isValidDate (.string "2023-02-29") = false ∧
    isValidDate (.string "2023-13-01") = false ∧
    isValidDate (.string "2023-05-00") = false := by
  refine ⟨?_, ?_, rfl, rfl, rfl, rfl, rfl⟩
  · intro s y m d hp
    simp [isValidDate, jsToString, hp, newDateOfString]
    by_cases hc : 1 ≤ m ∧ m ≤ 12 ∧ 1 ≤ d ∧ d ≤ daysInMonth y m
    · simp [hc]
    · simp [hc]
      intro h1 h2 h3
      omega
  · intro s hp
    simp [isValidDate, jsToString, hp]

/-- C7: each vocabulary membership test accepts every declared member
verbatim and rejects every other string, case-mismatched variants and the
empty string included. -/
theorem claim_C7_vocabulary_fidelity :
    (∀ s, s ∈ objectValues InsurancePlanType → isValidPlanType (.string s) = true) ∧
    (∀ s, s ∉ objectValues InsurancePlanType → isValidPlanType (.string s) = false) ∧
    (∀ s, s ∈ objectValues PrescriptionStatus → isValidPrescriptionStatus (.string s) = true) ∧
    (∀ s, s ∉ objectValues PrescriptionStatus → isValidPrescriptionStatus (.string s) = false) ∧
    (∀ s, s ∈ objectValues MedicationForm → isValidMedicationForm (.string s) = true) ∧
    (∀ s, s ∉ objectValues MedicationForm → isValidMedicationForm (.string s) = false) ∧
    isValidPlanType (.string "hmo") = false ∧
    isValidPlanType (.string "") = false ∧
    isValidMedicationForm (.string "Tablet") = false ∧
    isValidPrescriptionStatus (.string "filled") = false := by
  refine ⟨?_, ?_, ?_, ?_, ?_, ?_, rfl, rfl, rfl, rfl⟩ <;>
    intro s hs <;>
    simp [isValidPlanType, isValidPrescriptionStatus, isValidMedicationForm,
      jsIncludes_string_eq, List.contains, List.elem_eq_mem, hs]

/-- C8 (amended): `isValidStateCode` returns `some false` (no exception) for
`null` and `undefined`, never throws on a string and matches the fixed
56-entry list case-insensitively — but a truthy non-string argument makes
`state?.toUpperCase()` throw (`none`), unlike what the claim states for all
non-string input. -/
theorem claim_C8_state_code :
    isValidStateCode .null = some false ∧
    isValidStateCode .undefined = some false ∧
    (∀ s, isValidStateCode (.string s) = some (validStates.contains (jsToUpperCase s))) ∧
    (∀ s, jsToUpperCase s ∈ validStates → isValidStateCode (.string s) = some true) ∧
    isValidStateCode (.string "ca") = some true ∧
    isValidStateCode (.string "CA") = some true ∧
    isValidStateCode (.string "XX") = some false ∧
    isValidStateCode (.boolean true) = none ∧
    isValidStateCode (.object []) = none := by
  refine ⟨rfl, rfl, fun s => rfl, ?_, by rfl, by rfl, by rfl, rfl, rfl⟩
  intro s hs
  simp [isValidStateCode, List.contains, List.elem_eq_mem, hs]

/-- C8 counterexample: the claim says every non-string input yields `false`
rather than a throw, but a numeric input throws a `TypeError`
(`5?.toUpperCase()` is a call on `undefined`), modelled as `none`. -/
theorem claim_C8_counterexample : isValidStateCode (.number 5) = none := rfl

/-- C10: the ceiling cross-field checks fire only when the ceiling operand
is present.  With `deductible` (resp. `outOfPocketMax`, `refillsAllowed`)
absent, the `>` comparison against `undefined` is false (`NaN`), so no
"cannot exceed" error is emitted however large the met/remaining amount;
the concrete record with `deductibleMet = 1000000` and no `deductible`
validates cleanly. -/
theorem claim_C10_no_ceiling :
    (∀ fs r, lookupField fs "deductible" = .undefined →
       validateInsurance (.object fs) = some r →
       "Deductible met cannot exceed total deductible" ∉ r.errors) ∧
    (∀ fs r, lookupField fs "outOfPocketMax" = .undefined →
       validateInsurance (.object fs) = some r →
       "Out of pocket met cannot exceed out of pocket max" ∉ r.errors) ∧
    (∀ fs r, lookupField fs "refillsAllowed" = .undefined →
       validatePrescription (.object fs) = some r →
       "Refills remaining cannot exceed refills allowed" ∉ r.errors) ∧
    validateInsurance insuranceNoCeiling = some ⟨true, []⟩ :=
  ⟨c10_deductible, c10_outOfPocket, c10_refillsAllowed, rfl⟩

/-- C4: the four cross-field invariant checks are appended after the
per-field checks and are not suppressed by per-field failures: whenever the
two compared fields are numbers violating the invariant, the corresponding
"cannot exceed" / date-ordering error is in the output whatever the rest of
the record looks like; the concrete record with `deductible = -10` and
`deductibleMet = -5` collects both per-field range errors and the
cross-field error, three errors about the same field pair with the
cross-field one appended last. -/
theorem claim_C4_cross_field_not_suppressed :
    (∀ fs r (a b : Int), lookupField fs "deductibleMet" = .number a →
       lookupField fs "deductible" = .number b → b < a →
       validateInsurance (.object fs) = some r →
       "Deductible met cannot exceed total deductible" ∈ r.errors) ∧
    (∀ fs r (a b : Int), lookupField fs "outOfPocketMet" = .number a →
       lookupField fs "outOfPocketMax" = .number b → b < a →
       validateInsurance (.object fs) = some r →
       "Out of pocket met cannot exceed out of pocket max" ∈ r.errors) ∧
    (∀ fs r (a b : Int), lookupField fs "refillsRemaining" = .number a →
       lookupField fs "refillsAllowed" = .number b → b < a →
       validatePrescription (.object fs) = some r →
       "Refills remaining cannot exceed refills allowed" ∈ r.errors) ∧
    (∀ fs r, truthy (lookupField fs "effectiveDate") = true →
       truthy (lookupField fs "terminationDate") = true →
       dateLe (newDate (lookupField fs "terminationDate"))
              (newDate (lookupField fs "effectiveDate")) = true →
       validateInsurance (.object fs) = some r →
       "Termination date must be after effective date" ∈ r.errors) ∧
    validateInsurance insuranceNegativeDeductibles =
      some ⟨false, ["Deductible must be a non-negative number (in cents)",
                    "Deductible met must be a non-negative number (in cents)",
                    "Deductible met cannot exceed total deductible"]⟩ := by
  refine ⟨?_, ?_, ?_, ?_, rfl⟩
  · intro fs r a b ha hb hlt hok
    have hr := validateInsurance_some_eq hok
    subst hr
    have hgt : jsGT (lookupField fs "deductibleMet") (lookupField fs "deductible") = true := by
      rw [ha, hb, jsGT_number]; exact decide_eq_true hlt
    simp [insuranceErrorsT, hgt]
  · intro fs r a b ha hb hlt hok
    have hr := validateInsurance_some_eq hok
    subst hr
    have hgt : jsGT (lookupField fs "outOfPocketMet") (lookupField fs "outOfPocketMax") = true := by
      rw [ha, hb, jsGT_number]; exact decide_eq_true hlt
    simp [insuranceErrorsT, hgt]
  · intro fs r a b ha hb hlt hok
    have hr := validatePrescription_some_eq hok
    subst hr
    have hgt : jsGT (JSVal.number a) (lookupField fs "refillsAllowed") = true := by
      rw [hb, jsGT_number]; exact decide_eq_true hlt
    simp [rxErrorsT, refillsRemainingErrors, ha, hgt]
  · intro fs r h1 h2 h3 hok
    have hr := validateInsurance_some_eq hok
    subst hr
    simp [insuranceErrorsT, h1, h2, h3]

/-- C3 (amended): a required field that is absent (falsy; for the numeric
prescription fields, `undefined`/`null`) draws its presence error and never
its format or range error; the extra empty-after-trim presence test exists
only for the free-text fields (names, street, city, company, policy number,
plan name, medication name, strength, dosage instructions, prescriber
name), where a whitespace-only string draws the presence error as well.
Other required fields treat a whitespace-only string as present: a
whitespace email draws the format error instead of the presence error. -/
theorem claim_C3_required_presence :
    (∀ f pm fms, (f, pm, fms) ∈ userPlainRequired →
       ∀ fs r, truthy (lookupField fs f) = false →
         validateUser (.object fs) = some r →
         r.isValid = false ∧ pm ∈ r.errors ∧ ∀ m ∈ fms, m ∉ r.errors) ∧
    (∀ f pm fms, (f, pm, fms) ∈ userTrimRequired →
       ∀ fs r, (truthy (lookupField fs f) = false ∨
           ∃ s, lookupField fs f = .string s ∧ trimChars s.data = []) →
         validateUser (.object fs) = some r →
         r.isValid = false ∧ pm ∈ r.errors ∧ ∀ m ∈ fms, m ∉ r.errors) ∧
    (∀ f pm fms, (f, pm, fms) ∈ addressPlainRequired →
       ∀ fs afs r, lookupField fs "address" = .object afs →
         truthy (lookupField afs f) = false →
         validateUser (.object fs) = some r →
         r.isValid = false ∧ pm ∈ r.errors ∧ ∀ m ∈ fms, m ∉ r.errors) ∧
    (∀ f pm fms, (f, pm, fms) ∈ addressTrimRequired →
       ∀ fs afs r, lookupField fs "address" = .object afs →
         (truthy (lookupField afs f) = false ∨
           ∃ s, lookupField afs f = .string s ∧ trimChars s.data = []) →
         validateUser (.object fs) = some r →
         r.isValid = false ∧ pm ∈ r.errors ∧ ∀ m ∈ fms, m ∉ r.errors) ∧
    (∀ f pm fms, (f, pm, fms) ∈ insurancePlainRequired →
       ∀ fs r, truthy (lookupField fs f) = false →
         validateInsurance (.object fs) = some r →
         r.isValid = false ∧ pm ∈ r.errors ∧ ∀ m ∈ fms, m ∉ r.errors) ∧
    (∀ f pm fms, (f, pm, fms) ∈ insuranceTrimRequired →
       ∀ fs r, (truthy (lookupField fs f) = false ∨
           ∃ s, lookupField fs f = .string s ∧ trimChars s.data = []) →
         validateInsurance (.object fs) = some r →
         r.isValid = false ∧ pm ∈ r.errors ∧ ∀ m ∈ fms, m ∉ r.errors) ∧
    (∀ f pm fms, (f, pm, fms) ∈ rxPlainRequired →
       ∀ fs r, truthy (lookupField fs f) = false →
         validatePrescription (.object fs) = some r →
         r.isValid = false ∧ pm ∈ r.errors ∧ ∀ m ∈ fms, m ∉ r.errors) ∧
    (∀ f pm fms, (f, pm, fms) ∈ rxTrimRequired →
       ∀ fs r, (truthy (lookupField fs f) = false ∨
           ∃ s, lookupField fs f = .string s ∧ trimChars s.data = []) →
         validatePrescription (.object fs) = some r →
         r.isValid = false ∧ pm ∈ r.errors ∧ ∀ m ∈ fms, m ∉ r.errors) ∧
    (∀ f pm fms, (f, pm, fms) ∈ rxNumberRequired →
       ∀ fs r, (lookupField fs f = .undefined ∨ lookupField fs f = .null) →
         validatePrescription (.object fs) = some r →
         r.isValid = false ∧ pm ∈ r.errors ∧ ∀ m ∈ fms, m ∉ r.errors) ∧
    validateUser userBlankEmail = some ⟨false, ["Invalid email format"]⟩ :=
  ⟨c3_user_plain, c3_user_trim, c3_addr_plain, c3_addr_trim, c3_ins_plain,
   c3_ins_trim, c3_rx_plain, c3_rx_trim, c3_rx_number, by rfl⟩

/-- C3 counterexample: `userId` is a required field of an insurance record
and `" "` is empty after trimming, yet `validateInsurance` reports the
record fully valid with no error at all — `userId` has no empty-after-trim
test (and no format check), refuting the claim as stated. -/
theorem claim_C3_counterexample :
    jsTrim " " = "" ∧ validateInsurance insuranceBlankUserId = some ⟨true, []⟩ :=
  ⟨rfl, rfl⟩


/-- C9 (amended): `isInsuranceActive` is false when the effective date's
timestamp is after the current moment, false when a (truthy) termination
date parses to a timestamp strictly before the current moment, and
otherwise equals the `isActive !== false` test, which defaults to true when
the flag is absent.  Because a `YYYY-MM-DD` string parses to midnight UTC
and the comparison is strict, a record whose termination date equals today
is reported active only at that exact midnight instant; at any later moment
of the same day it is already reported inactive (see the counterexample). -/
theorem claim_C9_insurance_active :
    (∀ (now : Int) fs (te : Int),
       newDate (lookupField fs "effectiveDate") = some te → now < te →
       isInsuranceActive now (.object fs) = some false) ∧
    (∀ (now : Int) fs (tt : Int),
       dateLt (some now) (newDate (lookupField fs "effectiveDate")) = false →
       truthy (lookupField fs "terminationDate") = true →
       newDate (lookupField fs "terminationDate") = some tt → tt < now →
       isInsuranceActive now (.object fs) = some false) ∧
    (∀ (now : Int) fs,
       dateLt (some now) (newDate (lookupField fs "effectiveDate")) = false →
       (truthy (lookupField fs "terminationDate") &&
         dateLt (newDate (lookupField fs "terminationDate")) (some now)) = false →
       isInsuranceActive now (.object fs) = some (isActiveDefault fs)) ∧
    (∀ fs, lookupField fs "isActive" = .undefined → isActiveDefault fs = true) ∧
    (∀ fs, lookupField fs "isActive" = .boolean false → isActiveDefault fs = false) ∧
    (∀ fs (te tt : Int),
       newDate (lookupField fs "effectiveDate") = some te →
       truthy (lookupField fs "terminationDate") = true →
       newDate (lookupField fs "terminationDate") = some tt → te ≤ tt →
       isInsuranceActive tt (.object fs) = some (isActiveDefault fs)) ∧
    (∀ (now : Int) fs (te tt : Int),
       newDate (lookupField fs "effectiveDate") = some te →
       truthy (lookupField fs "terminationDate") = true →
       newDate (lookupField fs "terminationDate") = some tt → te ≤ tt → tt < now →
       isInsuranceActive now (.object fs) = some false) ∧
    isInsuranceActive 1718409600000 insuranceSameDay = some true := by
  refine ⟨?_, ?_, ?_, ?_, ?_, ?_, ?_, by rfl⟩
  · intro now fs te he hlt
    simp [isInsuranceActive, fieldOf, he, dateLt_some, hlt]
  · intro now fs tt h1 h2 h3 h4
    simp [isInsuranceActive, fieldOf, h1, h2, h3, dateLt_some, h4]
  · intro now fs h1 h2
    rw [Bool.and_eq_false_iff] at h2
    rcases h2 with h2 | h2 <;>
      simp [isInsuranceActive, fieldOf, h1, h2, isActiveDefault]
  · intro fs h
    simp [isActiveDefault, h]
  · intro fs h
    simp [isActiveDefault, h]
  · intro fs te tt he h2 h3 hle
    have h1 : dateLt (some tt) (newDate (lookupField fs "effectiveDate")) = false := by
      rw [he, dateLt_some]
      simp
      omega
    simp [isInsuranceActive, fieldOf, h1, h2, h3, dateLt_some, isActiveDefault,
      lt_self_iff_false]
  · intro now fs te tt he h2 h3 hle hnow
    have h1 : dateLt (some now) (newDate (lookupField fs "effectiveDate")) = false := by
      rw [he, dateLt_some]
      simp
      omega
    simp [isInsuranceActive, fieldOf, h1, h2, h3, dateLt_some, hnow]

/-- C9 counterexample: the claim reads the strictly-less-than comparison as
keeping a record whose termination date equals today active, but the
termination string parses to midnight UTC, so at noon of the termination
day (timestamp 1718452800000, inside the day starting at 1718409600000)
`isInsuranceActive` already reports the record inactive. -/
theorem claim_C9_counterexample :
    newDateOfString "2024-06-15" = some 1718409600000 ∧
    (1718409600000 : Int) ≤ 1718452800000 ∧
    (1718452800000 : Int) < 1718409600000 + 86400000 ∧
    isInsuranceActive 1718452800000 insuranceSameDay = some false := by
  refine ⟨by rfl, by norm_num, by norm_num, by rfl⟩


/-! ## Well-formed records validate cleanly (claim C1) -/

theorem pattern_ne_empty {p : String → Bool} (hp : p "" = false) {s : String}
    (h : p s = true) : s ≠ "" := by
  intro hs
  subst hs
  rw [h] at hp
  exact absurd hp (by decide)

theorem trim_ne_empty {s : String} (h : trimChars s.data ≠ []) : s ≠ "" := by
  intro hs
  subst hs
  exact h rfl

theorem c1_user : ∀ u, UserWellFormed u → validateUser (userToJS u) = some ⟨true, []⟩ := by
  intro u h
  obtain ⟨h1, h2, h3, h4, h5, h6, h7, h8, h9, h10, h11⟩ := h
  have hne1 : u.email ≠ "" := pattern_ne_empty (by decide) h1
  have hne2 : u.firstName ≠ "" := trim_ne_empty h2
  have hne3 : u.lastName ≠ "" := trim_ne_empty h4
  have hne4 : u.dateOfBirth ≠ "" := pattern_ne_empty (p := fun s => isValidDate (.string s)) (by decide) h6
  have hne5 : u.phoneNumber ≠ "" := pattern_ne_empty (by decide) h7
  have hne6 : u.street ≠ "" := trim_ne_empty h8
  have hne7 : u.city ≠ "" := trim_ne_empty h9
  have hne8 : u.state ≠ "" := pattern_ne_empty (p := fun s => validStates.contains (jsToUpperCase s)) (by decide) h10
  have hne9 : u.zipCode ≠ "" := pattern_ne_empty (by decide) h11
  have hmain := validateUser_eq_some
    [("email", .string u.email), ("firstName", .string u.firstName),
     ("lastName", .string u.lastName), ("dateOfBirth", .string u.dateOfBirth),
     ("phoneNumber", .string u.phoneNumber),
     ("address", .object [("street", .string u.street), ("city", .string u.city),
                          ("state", .string u.state), ("zipCode", .string u.zipCode)])]
    (fun _ => ⟨u.firstName, rfl⟩) (fun _ => ⟨u.lastName, rfl⟩)
    (by intro afs heq
        injection heq with heq
        subst heq
        exact ⟨fun _ => ⟨u.street, rfl⟩, fun _ => ⟨u.city, rfl⟩, fun _ => ⟨u.state, rfl⟩⟩)
  have hfn : (jsTrim u.firstName).length ≠ 0 := by
    simp [jsTrim]
    exact fun hc => h2 hc
  have hln : (jsTrim u.lastName).length ≠ 0 := by
    simp [jsTrim]
    exact fun hc => h4 hc
  have hst : (jsTrim u.street).length ≠ 0 := by
    simp [jsTrim]
    exact fun hc => h8 hc
  have hct : (jsTrim u.city).length ≠ 0 := by
    simp [jsTrim]
    exact fun hc => h9 hc
  have hmem10 : jsToUpperCase u.state ∈ validStates := List.elem_iff.mp h10
  have herr : userErrorsT
      [("email", .string u.email), ("firstName", .string u.firstName),
       ("lastName", .string u.lastName), ("dateOfBirth", .string u.dateOfBirth),
       ("phoneNumber", .string u.phoneNumber),
       ("address", .object [("street", .string u.street), ("city", .string u.city),
                            ("state", .string u.state), ("zipCode", .string u.zipCode)])] = [] := by
    simp [userErrorsT, lookupField, requiredFormat, requiredNameT, requiredName,
      addressErrorsT, requiredTrimmedT, requiredTrimmed, stateFieldErrorsT,
      stateFieldErrors, truthy, fieldOf, isValidEmail, isValidPhoneNumber,
      isValidZipCode, isValidStateCode, jsToString, List.contains, List.elem_eq_mem,
      hne1, hne2, hne3, hne4, hne5,
      hne6, hne7, hne8, hne9, h1, h6, h7, h10, h11, hfn, hln, hst, hct, hmem10,
      Nat.not_lt.mpr h3, Nat.not_lt.mpr h5]
  rw [herr] at hmain
  exact hmain

theorem jsGT_undef_left (v : JSVal) : jsGT .undefined v = false := by
  cases v <;> simp [jsGT, toPrimitive, toNumber]

theorem dateLe_false_of_dateLt {a b : Option Int} (h : dateLt a b = true) :
    dateLe b a = false := by
  cases a <;> cases b <;> simp_all [dateLt, dateLe]

theorem c1_insurance : ∀ r, InsuranceWellFormed r →
    validateInsurance (insuranceToJS r) = some ⟨true, []⟩ := by
  intro r h
  obtain ⟨h1, h2, h3, h4, h5, h6, h7, h8, h9, h10, h11, h12, h13, h14⟩ := h
  have hne2 : r.insuranceCompany ≠ "" := trim_ne_empty h2
  have hne3 : r.policyNumber ≠ "" := trim_ne_empty h3
  have hne4 : r.planType ≠ "" := by
    intro he; rw [he] at h4; exact absurd h4 (by decide)
  have hne5 : r.planName ≠ "" := trim_ne_empty h5
  have hne6 : r.rxBIN ≠ "" := pattern_ne_empty (by decide) h6
  have hne7 : r.effectiveDate ≠ "" :=
    pattern_ne_empty (p := fun s => isValidDate (.string s)) (by decide) h7
  have hpt : isValidPlanType (.string r.planType) = true := by
    simp [isValidPlanType, jsIncludes_string_eq, List.contains, List.elem_eq_mem, h4]
  have htr2 : (jsTrim r.insuranceCompany).length ≠ 0 := by
    simp [jsTrim]; exact fun hc => h2 hc
  have htr3 : (jsTrim r.policyNumber).length ≠ 0 := by
    simp [jsTrim]; exact fun hc => h3 hc
  have htr5 : (jsTrim r.planName).length ≠ 0 := by
    simp [jsTrim]; exact fun hc => h5 hc
  have hs7 : nonNegNumberCheck "Deductible must be a non-negative number (in cents)"
      (optNum r.deductible) = [] := by
    cases hd : r.deductible with
    | none => rfl
    | some n =>
        have hn := h9 n (by simp [hd])
        simp only [optNum, nonNegNumberCheck]
        rw [if_neg (by omega)]
  have hs8 : nonNegNumberCheck "Deductible met must be a non-negative number (in cents)"
      (optNum r.deductibleMet) = [] := by
    cases hd : r.deductibleMet with
    | none => rfl
    | some n =>
        have hn := h10 n (by simp [hd])
        simp only [optNum, nonNegNumberCheck]
        rw [if_neg (by omega)]
  have hs9 : nonNegNumberCheck "Out of pocket max must be a non-negative number (in cents)"
      (optNum r.outOfPocketMax) = [] := by
    cases hd : r.outOfPocketMax with
    | none => rfl
    | some n =>
        have hn := h11 n (by simp [hd])
        simp only [optNum, nonNegNumberCheck]
        rw [if_neg (by omega)]
  have hs10 : nonNegNumberCheck "Out of pocket met must be a non-negative number (in cents)"
      (optNum r.outOfPocketMet) = [] := by
    cases hd : r.outOfPocketMet with
    | none => rfl
    | some n =>
        have hn := h12 n (by simp [hd])
        simp only [optNum, nonNegNumberCheck]
        rw [if_neg (by omega)]
  have hs14 : jsGT (optNum r.deductibleMet) (optNum r.deductible) = false := by
    cases hm : r.deductibleMet with
    | none => simp [optNum, jsGT_undef_left]
    | some a =>
        cases hd : r.deductible with
        | none => simp [optNum, jsGT_undef_right]
        | some b =>
            have hab := h13 b (by simp [hd]) a (by simp [hm])
            simp [optNum, jsGT_number]
            omega
  have hs15 : jsGT (optNum r.outOfPocketMet) (optNum r.outOfPocketMax) = false := by
    cases hm : r.outOfPocketMet with
    | none => simp [optNum, jsGT_undef_left]
    | some a =>
        cases hd : r.outOfPocketMax with
        | none => simp [optNum, jsGT_undef_right]
        | some b =>
            have hab := h14 b (by simp [hd]) a (by simp [hm])
            simp [optNum, jsGT_number]
            omega
  have ht0 : truthy (.string r.userId) = true := by simp [truthy, h1]
  have htC : truthy (.string r.insuranceCompany) = true := by simp [truthy, hne2]
  have htP : truthy (.string r.policyNumber) = true := by simp [truthy, hne3]
  have htT : truthy (.string r.planType) = true := by simp [truthy, hne4]
  have htN : truthy (.string r.planName) = true := by simp [truthy, hne5]
  have htB : truthy (.string r.rxBIN) = true := by simp [truthy, hne6]
  have htE : truthy (.string r.effectiveDate) = true := by simp [truthy, hne7]
  have hmain := validateInsurance_eq_some
    [("userId", .string r.userId),
     ("insuranceCompany", .string r.insuranceCompany),
     ("policyNumber", .string r.policyNumber),
     ("planType", .string r.planType),
     ("planName", .string r.planName),
     ("rxBIN", .string r.rxBIN),
     ("effectiveDate", .string r.effectiveDate),
     ("terminationDate", optStr r.terminationDate),
     ("deductible", optNum r.deductible),
     ("deductibleMet", optNum r.deductibleMet),
     ("outOfPocketMax", optNum r.outOfPocketMax),
     ("outOfPocketMet", optNum r.outOfPocketMet)]
    (fun _ => ⟨r.insuranceCompany, rfl⟩) (fun _ => ⟨r.policyNumber, rfl⟩)
    (fun _ => ⟨r.planName, rfl⟩)
  have herr : insuranceErrorsT
      [("userId", .string r.userId),
       ("insuranceCompany", .string r.insuranceCompany),
       ("policyNumber", .string r.policyNumber),
       ("planType", .string r.planType),
       ("planName", .string r.planName),
       ("rxBIN", .string r.rxBIN),
       ("effectiveDate", .string r.effectiveDate),
       ("terminationDate", optStr r.terminationDate),
       ("deductible", optNum r.deductible),
       ("deductibleMet", optNum r.deductibleMet),
       ("outOfPocketMax", optNum r.outOfPocketMax),
       ("outOfPocketMet", optNum r.outOfPocketMet)] = [] := by
    simp [insuranceErrorsT, lookupField, requiredFormat, requiredTrimmedT, requiredTrimmed,
      isValidRxBIN, jsToString, ht0, htC, htP, htT, htN, htB, htE, hpt,
      htr2, htr3, htr5, h6, h7, hs7, hs8, hs9, hs10, hs14, hs15]
    constructor
    · intro htt
      cases ht : r.terminationDate with
      | none => rw [ht] at htt; exact absurd htt (by decide)
      | some t => exact (h8 t (by simp [ht])).1
    · intro htt
      cases ht : r.terminationDate with
      | none => rw [ht] at htt; exact absurd htt (by decide)
      | some t => exact dateLe_false_of_dateLt (h8 t (by simp [ht])).2
  rw [herr] at hmain
  exact hmain

theorem c1_prescription : ∀ r, PrescriptionWellFormed r →
    validatePrescription (prescriptionToJS r) = some ⟨true, []⟩ := by
  intro r h
  obtain ⟨h1, h2, h3, h4, h5, h6, h7, h8, h9, h10, h11, h12, h13, h14, h15⟩ := h
  have hne2 : r.medicationName ≠ "" := trim_ne_empty h2
  have hne3 : r.medicationForm ≠ "" := by
    intro he; rw [he] at h3; exact absurd h3 (by decide)
  have hne4 : r.strength ≠ "" := trim_ne_empty h4
  have hne6 : r.dosageInstructions ≠ "" := trim_ne_empty h6
  have hne11 : r.prescriberName ≠ "" := trim_ne_empty h11
  have hne12 : r.prescriberNPI ≠ "" := pattern_ne_empty (by decide) h12
  have hne13 : r.prescribedDate ≠ "" :=
    pattern_ne_empty (p := fun s => isValidDate (.string s)) (by decide) h13
  have ht1 : truthy (.string r.userId) = true := by simp [truthy, h1]
  have ht2 : truthy (.string r.medicationName) = true := by simp [truthy, hne2]
  have ht3 : truthy (.string r.medicationForm) = true := by simp [truthy, hne3]
  have ht4 : truthy (.string r.strength) = true := by simp [truthy, hne4]
  have ht6 : truthy (.string r.dosageInstructions) = true := by simp [truthy, hne6]
  have ht11 : truthy (.string r.prescriberName) = true := by simp [truthy, hne11]
  have ht12 : truthy (.string r.prescriberNPI) = true := by simp [truthy, hne12]
  have ht13 : truthy (.string r.prescribedDate) = true := by simp [truthy, hne13]
  have htr2 : (jsTrim r.medicationName).length ≠ 0 := by
    simp [jsTrim]; exact fun hc => h2 hc
  have htr4 : (jsTrim r.strength).length ≠ 0 := by
    simp [jsTrim]; exact fun hc => h4 hc
  have htr6 : (jsTrim r.dosageInstructions).length ≠ 0 := by
    simp [jsTrim]; exact fun hc => h6 hc
  have htr11 : (jsTrim r.prescriberName).length ≠ 0 := by
    simp [jsTrim]; exact fun hc => h11 hc
  have hform : isValidMedicationForm (.string r.medicationForm) = true := by
    simp [isValidMedicationForm, jsIncludes_string_eq, List.contains, List.elem_eq_mem, h3]
  have hnpi : isValidNPI (.string r.prescriberNPI) = true := by
    simp [isValidNPI, jsToString, h12]
  have hs7 : positiveNumberCheck "Quantity is required" "Quantity must be a positive number"
      (.number r.quantity) = [] := by
    simp only [positiveNumberCheck]
    rw [if_neg (by omega)]
  have hs8 : positiveNumberCheck "Days supply is required" "Days supply must be a positive number"
      (.number r.daysSupply) = [] := by
    simp only [positiveNumberCheck]
    rw [if_neg (by omega)]
  have hs9 : nonNegRequiredCheck "Refills allowed is required"
      "Refills allowed must be a non-negative number" (.number r.refillsAllowed) = [] := by
    simp only [nonNegRequiredCheck]
    rw [if_neg (by omega)]
  have hs10 : refillsRemainingErrors (optNum r.refillsRemaining) (.number r.refillsAllowed)
      = [] := by
    cases hm : r.refillsRemaining with
    | none => rfl
    | some n =>
        obtain ⟨hn0, hna⟩ := h10 n (by simp [hm])
        simp [refillsRemainingErrors, optNum, jsGT_number]
        omega
  have hmain := validatePrescription_eq_some
    [("userId", .string r.userId),
     ("insuranceId", optStr r.insuranceId),
     ("medicationName", .string r.medicationName),
     ("medicationForm", .string r.medicationForm),
     ("strength", .string r.strength),
     ("ndc", optStr r.ndc),
     ("dosageInstructions", .string r.dosageInstructions),
     ("quantity", .number r.quantity),
     ("daysSupply", .number r.daysSupply),
     ("refillsAllowed", .number r.refillsAllowed),
     ("refillsRemaining", optNum r.refillsRemaining),
     ("prescriberName", .string r.prescriberName),
     ("prescriberNPI", .string r.prescriberNPI),
     ("prescribedDate", .string r.prescribedDate),
     ("status", optStr r.status),
     ("pharmacyNPI", optStr r.pharmacyNPI)]
    (fun _ => ⟨r.medicationName, rfl⟩) (fun _ => ⟨r.strength, rfl⟩)
    (fun _ => ⟨r.dosageInstructions, rfl⟩) (fun _ => ⟨r.prescriberName, rfl⟩)
  have herr : rxErrorsT
      [("userId", .string r.userId),
       ("insuranceId", optStr r.insuranceId),
       ("medicationName", .string r.medicationName),
       ("medicationForm", .string r.medicationForm),
       ("strength", .string r.strength),
       ("ndc", optStr r.ndc),
       ("dosageInstructions", .string r.dosageInstructions),
       ("quantity", .number r.quantity),
       ("daysSupply", .number r.daysSupply),
       ("refillsAllowed", .number r.refillsAllowed),
       ("refillsRemaining", optNum r.refillsRemaining),
       ("prescriberName", .string r.prescriberName),
       ("prescriberNPI", .string r.prescriberNPI),
       ("prescribedDate", .string r.prescribedDate),
       ("status", optStr r.status),
       ("pharmacyNPI", optStr r.pharmacyNPI)] = [] := by
    simp [rxErrorsT, lookupField, requiredFormat, requiredTrimmedT, requiredTrimmed,
      jsToString, ht1, ht2, ht3, ht4, ht6, ht11, ht12, ht13, htr2, htr4, htr6, htr11,
      hform, hnpi, h13, hs7, hs8, hs9, hs10]
    refine ⟨?_, ?_, ?_⟩
    · intro htt
      cases hn : r.ndc with
      | none => rw [hn] at htt; exact absurd htt (by decide)
      | some n =>
          have := h5 n (by simp [hn])
          simp [isValidNDC, jsToString, optStr, this]
    · intro htt
      cases hn : r.status with
      | none => rw [hn] at htt; exact absurd htt (by decide)
      | some s =>
          have := h14 s (by simp [hn])
          simp [isValidPrescriptionStatus, optStr, jsIncludes_string_eq, List.contains,
            List.elem_eq_mem, this]
    · intro htt
      cases hn : r.pharmacyNPI with
      | none => rw [hn] at htt; exact absurd htt (by decide)
      | some n =>
          have := h15 n (by simp [hn])
          simp [isValidNPI, jsToString, optStr, this]
  rw [herr] at hmain
  exact hmain

/-- C1: every record satisfying all documented constraints validates with
`isValid = true` and no errors, for each of the three validators; in
particular the concrete record of spec scenario 1. -/
theorem claim_C1_well_formed_records :
    (∀ u, UserWellFormed u → validateUser (userToJS u) = some ⟨true, []⟩) ∧
    (∀ r, InsuranceWellFormed r → validateInsurance (insuranceToJS r) = some ⟨true, []⟩) ∧
    (∀ r, PrescriptionWellFormed r →
       validatePrescription (prescriptionToJS r) = some ⟨true, []⟩) ∧
    validateUser specScenarioUser = some ⟨true, []⟩ :=
  ⟨c1_user, c1_insurance, c1_prescription, by rfl⟩

/-- C2 (amended): each validator returns normally with an `{isValid,
errors}` result — every detected problem appearing only in `errors` — for
every object record whose trim-checked free-text fields are strings
whenever truthy (for `validateUser` this extends to `street`/`city`/`state`
of an object-valued `address`); a primitive non-nullish record also
returns normally.  A `null`/`undefined` record, however, throws on the
first property read, and a truthy non-string in a trim-checked field
throws in `.trim()` (see the counterexample), so the claim's "never throws
for any shape" is too strong. -/
theorem claim_C2_total_on_safe_records :
    (∀ fs, trimSafe (lookupField fs "firstName") → trimSafe (lookupField fs "lastName") →
       addressSafe (lookupField fs "address") →
       ∃ r, validateUser (.object fs) = some r) ∧
    (∀ fs, trimSafe (lookupField fs "insuranceCompany") →
       trimSafe (lookupField fs "policyNumber") → trimSafe (lookupField fs "planName") →
       ∃ r, validateInsurance (.object fs) = some r) ∧
    (∀ fs, trimSafe (lookupField fs "medicationName") → trimSafe (lookupField fs "strength") →
       trimSafe (lookupField fs "dosageInstructions") →
       trimSafe (lookupField fs "prescriberName") →
       ∃ r, validatePrescription (.object fs) = some r) ∧
    (∀ n : Int, ∃ r, validateUser (.number n) = some r) ∧
    validateUser .null = none ∧ validateUser .undefined = none ∧
    validateInsurance .null = none ∧ validatePrescription .undefined = none :=
  ⟨fun fs h2 h3 h6 => ⟨_, validateUser_eq_some fs h2 h3 h6⟩,
   fun fs h2 h3 h5 => ⟨_, validateInsurance_eq_some fs h2 h3 h5⟩,
   fun fs h2 h4 h6 h11 => ⟨_, validatePrescription_eq_some fs h2 h4 h6 h11⟩,
   fun _ => ⟨_, rfl⟩, rfl, rfl, rfl, rfl⟩

/-- C2 counterexample: a record whose `firstName` holds the number `5` is
truthy, so `validateUser` calls `(5).trim()` and throws a `TypeError`
(`none`) instead of returning an `{isValid, errors}` result. -/
theorem claim_C2_counterexample :
    validateUser (.object [("firstName", .number 5)]) = none := rfl

end Rx
